import Mathlib

/-!
Verification of the timeline / reference-frame composition engine of the
Celestia solar-system catalog loader (`src/celengine/solarsys.cpp`).

The development shallowly embeds `CreateTimelinePhase`, `CreateTimelineFromArray`,
`GetOrbitBarycenter` and `CreateTimeline` (both the explicit `"Timeline"` array
path and the legacy single-phase path with its Add/Replace/Modify disposition
logic).  Every embedded function additionally produces an explicit event trace
recording reference-count operations (frame/orbit/rotation-model retains and
releases), `Body::setTimeline` calls, the `CreateOrbit` call sites with the
`usePlanetUnits` flag actually passed, and the error log messages, so that
resource-handling and error-reporting properties can be stated directly.

External collaborators (`CreateReferenceFrame`, `CreateOrbit`,
`CreateRotationModel`, the `Hash` field accessors and `ParseDate`) are
abstracted as data carried by the catalog-entry records, exactly at the
granularity at which `solarsys.cpp` consumes their results.
-/

namespace Celestia

/-- A `double` time value as used for phase boundaries in `solarsys.cpp`:
either one of the two infinities (`numeric_limits<double>::infinity()` and its
negation) or a finite parsed date. -/
inductive EDouble
  | negInf
  | posInf
  | fin (t : Rat)
deriving DecidableEq

/-- The center of a reference frame: a body or a star (mutually exclusive, per
the data model).  `getCenter().star() != NULL` is `centerIsStar` below. -/
inductive Center
  | cbody (id : Nat)
  | cstar (id : Nat)
deriving DecidableEq

/-- `ReferenceFrame::FrameType`: the kind of nesting chain followed by
`nestingDepth` (position vs. orientation). -/
inductive FrameType
  | PositionFrame
  | OrientationFrame
deriving DecidableEq

/-- A reference frame.  `solarsys.cpp` consumes frames through
`getCenter()` and `nestingDepth(maxDepth, frameType)` only.  Modelled from the
spec: the `ReferenceFrame` class hierarchy and `nestingDepth` live in
`frame.cpp`, which is not among the sources; per spec §4.1 `nestingDepth`
follows parent links of the requested type and short-circuits past the bound,
so we abstract the value it returns at the one bound it is ever called with
(`MaxFrameDepth`) as per-frame data (`posDepth` / `orientDepth`). -/
structure ReferenceFrame where
  id : Nat
  center : Center
  posDepth : Nat
  orientDepth : Nat
deriving DecidableEq

/-- The depth reported by `frame.nestingDepth(MaxFrameDepth, frameType)`.
Modelled from the spec (see `ReferenceFrame`). -/
def ReferenceFrame.nestingDepth (f : ReferenceFrame) (ft : FrameType) : Nat :=
  match ft with
  | FrameType.PositionFrame => f.posDepth
  | FrameType.OrientationFrame => f.orientDepth

/-- Whether the frame's center is a star: `getCenter().star() != NULL`. -/
def centerIsStar (f : ReferenceFrame) : Bool :=
  match f.center with
  | Center.cstar _ => true
  | Center.cbody _ => false

/-- Maximum depth permitted for nested frames (`MaxFrameDepth` in
`solarsys.cpp`). -/
def MaxFrameDepth : Nat := 50

/-- `isFrameCircular`: the frame's nesting depth at bound `MaxFrameDepth`
exceeds `MaxFrameDepth`. -/
def isFrameCircular (frame : ReferenceFrame) (frameType : FrameType) : Bool :=
  decide (MaxFrameDepth < frame.nestingDepth frameType)

/-- An orbit as consumed by the builder: an opaque value exposing `getPeriod()`. -/
structure Orbit where
  id : Nat
  period : Rat
deriving DecidableEq

/-- A rotation model.  `constantOrientation` is the
`new ConstantOrientation(Quatd(1.0))` fallback of `CreateTimelinePhase`;
`uniform period` is the result of `CreateDefaultRotationModel(period)`
(modelled from the spec §6: it always succeeds and produces a uniform
synchronous rotation); `custom` stands for any model produced by
`CreateRotationModel` from explicit catalog fields. -/
inductive RotationModel
  | constantOrientation
  | uniform (period : Rat)
  | custom (id : Nat)
deriving DecidableEq

/-- `CreateDefaultRotationModel(period)`.  Modelled from the spec §6
(`parseobject.cpp` is not among the sources): always succeeds, uniform
synchronous rotation with the given period. -/
def CreateDefaultRotationModel (period : Rat) : RotationModel :=
  RotationModel.uniform period

/-- A timeline phase: the time-bounded binding of orbit frame, orbit, body
frame and rotation model produced by `TimelinePhase::CreateTimelinePhase`.
Modelled from the spec §4.2 (`timelinephase.cpp` is not among the sources):
the constructor retains the four references and returns an immutable phase;
the body back-reference is weak and not needed by any claim. -/
structure TimelinePhase where
  startTime : EDouble
  endTime : EDouble
  orbitFrame : ReferenceFrame
  bodyFrame : ReferenceFrame
  orbit : Orbit
  rotationModel : RotationModel
deriving DecidableEq

/-- A timeline: the ordered phase sequence built by `appendPhase` calls.
Modelled from the spec (`timeline.cpp` is not among the sources): an ordered
sequence of phases owned by one body. -/
structure Timeline where
  phases : List TimelinePhase
deriving DecidableEq

/-- The slice of `Body` consumed by `CreateTimeline`: its name
(`getName()`), the star of its planetary system
(`getSystem()->getStar()`, used by `GetOrbitBarycenter`), the default
reference frame of its (lazily created) frame tree
(`getOrCreateFrameTree()->getDefaultReferenceFrame()`), and the currently
installed timeline (`getTimeline()`).  A body that has no timeline installed
yet is modelled by an empty phase list. -/
structure Body where
  name : String
  systemStarId : Nat
  frameTreeDefault : ReferenceFrame
  timeline : Timeline
deriving DecidableEq

/-- The slice of `PlanetarySystem` consumed by `GetOrbitBarycenter`:
`getStar()` and `getPrimaryBody()`. -/
structure PlanetarySystem where
  starId : Nat
  primaryBody : Option Body

/-- A `Selection`: empty, a body, or a star. -/
inductive Selection
  | empty
  | body (b : Body)
  | star (s : Nat)
deriving DecidableEq

/-- The slice of `Universe` consumed by `CreateTimeline`: for a star
barycenter, `getSolarSystem`/`createSolarSystem` always yields a solar system
whose frame tree supplies a default reference frame
(`getFrameTree()->getDefaultReferenceFrame()`); we record that resolved
default frame per star. -/
structure Universe where
  starFrameTreeDefault : Nat → ReferenceFrame

/-- The `Disposition` of a catalog entry. -/
inductive Disposition
  | AddObject
  | ReplaceObject
  | ModifyObject
deriving DecidableEq

/-- A tracked shared resource: a reference frame, orbit, or rotation model. -/
inductive Res
  | frame (f : ReferenceFrame)
  | orbit (o : Orbit)
  | rot (r : RotationModel)
deriving DecidableEq

/-- The error messages logged by the embedded functions (each constructor is
one `clog`/`cerr` message of `solarsys.cpp`, with the data interpolated into
it). -/
inductive LogMsg
  | beginningNotFirst
  | endingRequired
  | missingOrbitPhase
  | phaseNotHash (idx : Nat)
  | phaseFailed (idx : Nat)
  | timelineMustBeArray
  | noValidOrbit (name : String)
  | orbitFrameTooDeep (name : String)
  | bodyFrameTooDeep (name : String)
  | barycenterMismatch (name : String)
deriving DecidableEq

/-- A trace event: a reference-count retain (object creation or `addRef`), a
release, a `Body::setTimeline` call, a `CreateOrbit` call with the
`usePlanetUnits` flag actually passed and the resolved orbit frame it was
computed from, or an error log message. -/
inductive Event
  | retain (r : Res)
  | release (r : Res)
  | setTimeline (t : Timeline)
  | orbitCall (frame : ReferenceFrame) (usePlanetUnits : Bool)
  | err (m : LogMsg)
deriving DecidableEq

/-- The resources retained in a trace. -/
def retains (ev : List Event) : List Res :=
  ev.filterMap fun e =>
    match e with
    | Event.retain r => some r
    | _ => none

/-- The resources released in a trace. -/
def releases (ev : List Event) : List Res :=
  ev.filterMap fun e =>
    match e with
    | Event.release r => some r
    | _ => none

/-- The timelines installed by `setTimeline` in a trace. -/
def installs (ev : List Event) : List Timeline :=
  ev.filterMap fun e =>
    match e with
    | Event.setTimeline t => some t
    | _ => none

/-- The error messages logged in a trace. -/
def errorsOf (ev : List Event) : List LogMsg :=
  ev.filterMap fun e =>
    match e with
    | Event.err m => some m
    | _ => none

/-- One phase specification inside a `"Timeline"` array, as consumed by
`CreateTimelinePhase`:
* `beginning` / `ending` are the `ParseDate` results for `"Beginning"` /
  `"Ending"` (`none` when the field is absent or does not parse);
* `orbitFrameVal` / `bodyFrameVal` are the `"OrbitFrame"` / `"BodyFrame"`
  values: `none` when the field is absent, `some r` when present with `r` the
  result of `CreateReferenceFrame` on it (`some none` = creation failed);
* `createOrbit b` is the result of `CreateOrbit(NULL, phaseData, path, b)`;
* `createRotation p` is the result of
  `CreateRotationModel(phaseData, path, p)` with reference period `p`. -/
structure PhaseData where
  beginning : Option Rat
  ending : Option Rat
  orbitFrameVal : Option (Option ReferenceFrame)
  bodyFrameVal : Option (Option ReferenceFrame)
  createOrbit : Bool → Option Orbit
  createRotation : Rat → Option RotationModel

/-- One element of the `"Timeline"` array: `(*iter)->getHash()` either fails
(`notHash`) or yields a phase field group. -/
inductive PhaseEntry
  | notHash
  | ph (pd : PhaseData)

/-- The `"Timeline"` catalog value: either not an array, or an array of
entries. -/
inductive TimelineSpec
  | notArray
  | arr (entries : List PhaseEntry)

/-- The slice of a top-level catalog entry (`planetData`) consumed by
`CreateTimeline`, with the same conventions as `PhaseData`.  `timelineVal` is
the `"Timeline"` value (`none` when absent). -/
structure PlanetData where
  timelineVal : Option TimelineSpec
  orbitFrameVal : Option (Option ReferenceFrame)
  bodyFrameVal : Option (Option ReferenceFrame)
  createOrbit : Bool → Option Orbit
  createRotation : Rat → Option RotationModel
  beginningVal : Option Rat
  endingVal : Option Rat

/-- Resolution of an optional frame field against the caller-supplied default
frame, as done by `CreateTimelinePhase`: an absent field falls back to the
default frame (which is then `addRef`ed); a present field on which
`CreateReferenceFrame` fails resolves to nothing. -/
def resolveFrame (fieldVal : Option (Option ReferenceFrame))
    (defaultFrame : ReferenceFrame) : Option ReferenceFrame :=
  match fieldVal with
  | some r => r
  | none => some defaultFrame

/-- Shallow embedding of `CreateTimelinePhase` (solarsys.cpp lines 257-357).
Returns the phase (or `none` on failure) together with the event trace.
The trace records each frame retain (`CreateReferenceFrame` result or
`defaultFrame->addRef()`), the releases performed on the failure paths, the
`CreateOrbit` call with its `usePlanetUnits` flag, the retain of the created
orbit and rotation model, and the error messages; the final
`TimelinePhase::CreateTimelinePhase` absorbs the local references into the
returned phase (ownership transfer, spec §4.2). -/
def CreateTimelinePhase (pd : PhaseData) (defaultFrame : ReferenceFrame)
    (isFirstPhase isLastPhase : Bool) (previousPhaseEnd : EDouble) :
    Option TimelinePhase × List Event :=
  let hasBeginning := pd.beginning.isSome
  let beginning : EDouble :=
    match pd.beginning with
    | some d => EDouble.fin d
    | none => previousPhaseEnd
  if !isFirstPhase && hasBeginning then
    (none, [Event.err LogMsg.beginningNotFirst])
  else
    let hasEnding := pd.ending.isSome
    let ending : EDouble :=
      match pd.ending with
      | some d => EDouble.fin d
      | none => EDouble.posInf
    if !isLastPhase && !hasEnding then
      (none, [Event.err LogMsg.endingRequired])
    else
      match resolveFrame pd.orbitFrameVal defaultFrame with
      | none => (none, [])
      | some orbitFrame =>
        match resolveFrame pd.bodyFrameVal defaultFrame with
        | none =>
            (none, [Event.retain (Res.frame orbitFrame),
                    Event.release (Res.frame orbitFrame)])
        | some bodyFrame =>
          let usePlanetUnits := centerIsStar orbitFrame
          match pd.createOrbit usePlanetUnits with
          | none =>
              (none, [Event.retain (Res.frame orbitFrame),
                      Event.retain (Res.frame bodyFrame),
                      Event.orbitCall orbitFrame usePlanetUnits,
                      Event.err LogMsg.missingOrbitPhase,
                      Event.release (Res.frame bodyFrame),
                      Event.release (Res.frame orbitFrame)])
          | some orbit =>
            let rotationModel :=
              match pd.createRotation orbit.period with
              | some r => r
              | none => RotationModel.constantOrientation
            (some { startTime := beginning, endTime := ending,
                    orbitFrame := orbitFrame, bodyFrame := bodyFrame,
                    orbit := orbit, rotationModel := rotationModel },
             [Event.retain (Res.frame orbitFrame),
              Event.retain (Res.frame bodyFrame),
              Event.orbitCall orbitFrame usePlanetUnits,
              Event.retain (Res.orbit orbit),
              Event.retain (Res.rot rotationModel)])

/-- The releases performed when a phase is destroyed: the phase drops its
orbit frame, orbit, body frame, and rotation model references.  Modelled from
the spec (§3 `Timeline`, §5): destruction releases the phase's shared
references. -/
def releasePhase (p : TimelinePhase) : List Event :=
  [Event.release (Res.frame p.orbitFrame), Event.release (Res.orbit p.orbit),
   Event.release (Res.frame p.bodyFrame), Event.release (Res.rot p.rotationModel)]

/-- The releases performed by `delete timeline` on a partially-built timeline:
each already-appended phase is destroyed.  Modelled from the spec (§3
`Timeline`: discarding a timeline releases its phases' references). -/
def releaseTimeline : List TimelinePhase → List Event
  | [] => []
  | p :: ps => releasePhase p ++ releaseTimeline ps

/-- The resources held by a phase (same resources, in the same order, as
`releasePhase` drops). -/
def phaseRes (p : TimelinePhase) : List Res :=
  [Res.frame p.orbitFrame, Res.orbit p.orbit,
   Res.frame p.bodyFrame, Res.rot p.rotationModel]

/-- The resources held by a list of already-appended phases. -/
def heldRes : List TimelinePhase → List Res
  | [] => []
  | p :: ps => phaseRes p ++ heldRes ps

/-- The loop of `CreateTimelineFromArray` (solarsys.cpp lines 369-396),
processing the remaining entries.  `total` is the array length (so
`i + 1 == total` is the `*iter == timelineArray->back()` test, the entries of
a parsed catalog array being distinct objects), `i` the 0-based index of the
next entry, `prevEnd` the `previousEnding` variable, `acc` the phases already
appended to the timeline under construction, and `ev` the trace so far.  On
failure the partial timeline is deleted, releasing the appended phases. -/
def tlgo (df : ReferenceFrame) (total : Nat) :
    List PhaseEntry → Nat → EDouble → List TimelinePhase → List Event →
    Option Timeline × List Event
  | [], _, _, acc, ev => (some ⟨acc⟩, ev)
  | PhaseEntry.notHash :: _, i, _, acc, ev =>
      (none, ev ++ [Event.err (LogMsg.phaseNotHash (i + 1))] ++ releaseTimeline acc)
  | PhaseEntry.ph pd :: rest, i, prevEnd, acc, ev =>
      match CreateTimelinePhase pd df (i == 0) (i + 1 == total) prevEnd with
      | (none, pev) =>
          (none, ev ++ pev ++ [Event.err (LogMsg.phaseFailed (i + 1))] ++
                 releaseTimeline acc)
      | (some ph, pev) =>
          tlgo df total rest (i + 1) ph.endTime (acc ++ [ph]) (ev ++ pev)

/-- Shallow embedding of `CreateTimelineFromArray` (solarsys.cpp lines
360-399): start with an empty timeline and `previousEnding = -infinity`, then
process the array entries in order. -/
def CreateTimelineFromArray (entries : List PhaseEntry) (df : ReferenceFrame) :
    Option Timeline × List Event :=
  tlgo df entries.length entries 0 EDouble.negInf [] []

/-- Shallow embedding of `GetOrbitBarycenter` (solarsys.cpp lines 225-254):
the barycenter is the parent system's primary body if there is one, otherwise
the system's star; it must lie in the same star system as the object being
created, else the empty selection is returned with an error. -/
def GetOrbitBarycenter (name : String) (system : PlanetarySystem) :
    Selection × List Event :=
  let orbitBarycenter : Selection :=
    match system.primaryBody with
    | some primary => Selection.body primary
    | none => Selection.star system.starId
  match orbitBarycenter with
  | Selection.body b =>
      if system.starId ≠ b.systemStarId then
        (Selection.empty, [Event.err (LogMsg.barycenterMismatch name)])
      else
        (orbitBarycenter, [])
  | Selection.star s =>
      if system.starId ≠ s then
        (Selection.empty, [Event.err (LogMsg.barycenterMismatch name)])
      else
        (orbitBarycenter, [])
  | Selection.empty => (orbitBarycenter, [])

/-- Processing of a legacy `"OrbitFrame"`/`"BodyFrame"` top-level field
(solarsys.cpp lines 489-514): when the field is present and
`CreateReferenceFrame` succeeds, the new frame replaces the inherited one and
the timeline is marked overridden; when the field is present but frame
creation fails, the failure is silently ignored and the inherited frame kept;
when absent, the inherited frame is kept.  Returns
(resulting frame if any, whether a new frame was set, trace). -/
def legacyFrameField (fieldVal : Option (Option ReferenceFrame))
    (inherited : Option ReferenceFrame) :
    Option ReferenceFrame × Bool × List Event :=
  match fieldVal with
  | some (some f) => (some f, true, [Event.retain (Res.frame f)])
  | some none => (inherited, false, [])
  | none => (inherited, false, [])

/-- The retain performed when `CreateOrbit` produced a new orbit
(solarsys.cpp lines 529-541): the new orbit is a created (retained) object;
when no new orbit was produced nothing is retained. -/
def retainOrbitEv (newOrbit : Option Orbit) : List Event :=
  match newOrbit with
  | some o => [Event.retain (Res.orbit o)]
  | none => []

/-- Orbit selection of the legacy path (lines 536-541): a newly created orbit
overrides the inherited one.  The `none, none` case is unreachable: the
caller has already failed with "No valid orbit" before using this. -/
def pickOrbit (newOrbit orbit0 : Option Orbit) : Orbit :=
  match newOrbit, orbit0 with
  | some o, _ => o
  | none, some o => o
  | none, none => { id := 0, period := 0 }

/-- Rotation-model resolution of the legacy path (lines 543-562): a new model
wins, else the inherited one, else the default synchronous model with the
sync period. -/
def pickRot (newRot rot0 : Option RotationModel) (syncPeriod : Rat) :
    RotationModel :=
  match newRot, rot0 with
  | some r, _ => r
  | none, some r => r
  | none, none => CreateDefaultRotationModel syncPeriod

/-- The retain performed for the legacy path's rotation model: a newly
created model is retained, an inherited one is not, and the default model is
created (hence retained). -/
def retainRotEv (newRot rot0 : Option RotationModel) (syncPeriod : Rat) :
    List Event :=
  match newRot, rot0 with
  | some r, _ => [Event.retain (Res.rot r)]
  | none, some _ => []
  | none, none =>
      [Event.retain (Res.rot (CreateDefaultRotationModel syncPeriod))]

/-- The frame-circularity checks run after the legacy path has installed its
new single-phase timeline (solarsys.cpp lines 590-604): they apply only to
newly supplied frames, and use the frames of the just-installed phase
(`body->getOrbitFrame(0.0)` / `body->getBodyFrame(0.0)` resolve to the only
phase of the just-installed timeline). -/
def circularCheck (newOF newBF : Bool) (phase : TimelinePhase)
    (bodyName : String) (evSet : List Event) : Bool × List Event :=
  if newOF && isFrameCircular phase.orbitFrame FrameType.PositionFrame then
    (false, evSet ++ [Event.err (LogMsg.orbitFrameTooDeep bodyName)])
  else if newBF && isFrameCircular phase.bodyFrame FrameType.OrientationFrame then
    (false, evSet ++ [Event.err (LogMsg.bodyFrameTooDeep bodyName)])
  else
    (true, evSet)

/-- The tail of the legacy path (solarsys.cpp lines 574-607): when at least
one timeline-affecting field was overridden (or the disposition is not
Modify), build the single-phase timeline, install it with `setTimeline`, and
run the circularity checks; otherwise leave the body's timeline untouched and
succeed. -/
def installPhase (overrideOld newOF newBF : Bool) (phase : TimelinePhase)
    (bodyName : String) (evPre : List Event) : Bool × List Event :=
  if overrideOld then
    circularCheck newOF newBF phase bodyName
      (evPre ++ [Event.setTimeline ⟨[phase]⟩])
  else
    (true, evPre)

/-- Shallow embedding of the legacy single-phase part of `CreateTimeline`
(solarsys.cpp lines 455-607), reached when there is no `"Timeline"` value:
Modify on a single-phase timeline first inherits that phase's fields, each
supplied field then overrides the inherited value, a new single-phase
timeline is installed iff anything was overridden, and the frame-circularity
checks run on newly supplied frames after installation.  Mirrors the
source's short-circuit `ParseDate(..."Beginning"...) || ParseDate(..."Ending"...)`
(so a supplied `"Ending"` is not even parsed when `"Beginning"` is present)
and the missing-orbit early return, which releases nothing. -/
def legacyTimeline (body : Body) (pd : PlanetData) (disposition : Disposition)
    (parentDefault : ReferenceFrame) : Bool × List Event :=
  let inhPhase : Option TimelinePhase :=
    match disposition, body.timeline.phases with
    | Disposition.ModifyObject, [p] => some p
    | _, _ => none
  let orbitFrame0 : Option ReferenceFrame :=
    Option.map (fun p => p.orbitFrame) inhPhase
  let bodyFrame0 : Option ReferenceFrame :=
    Option.map (fun p => p.bodyFrame) inhPhase
  let orbit0 : Option Orbit := Option.map (fun p => p.orbit) inhPhase
  let rot0 : Option RotationModel :=
    Option.map (fun p => p.rotationModel) inhPhase
  let beginning0 : EDouble :=
    match inhPhase with
    | some p => p.startTime
    | none => EDouble.negInf
  let ending0 : EDouble :=
    match inhPhase with
    | some p => p.endTime
    | none => EDouble.posInf
  let ofr := legacyFrameField pd.orbitFrameVal orbitFrame0
  let bfr := legacyFrameField pd.bodyFrameVal bodyFrame0
  let orbitFrame2 : ReferenceFrame := (ofr.1).getD parentDefault
  let bodyFrame2 : ReferenceFrame := (bfr.1).getD parentDefault
  let usePlanetUnits := centerIsStar orbitFrame2
  let newOrbit := pd.createOrbit usePlanetUnits
  let evHead := ofr.2.2 ++ bfr.2.2 ++ [Event.orbitCall orbitFrame2 usePlanetUnits]
  if newOrbit.isNone && orbit0.isNone then
    (false, evHead ++ [Event.err (LogMsg.noValidOrbit body.name)])
  else
    let orbit2 : Orbit := pickOrbit newOrbit orbit0
    let syncRotationPeriod := orbit2.period
    let newRot := pd.createRotation syncRotationPeriod
    let rot2 : RotationModel := pickRot newRot rot0 syncRotationPeriod
    let hasBeg := pd.beginningVal.isSome
    let beginning2 : EDouble :=
      match pd.beginningVal with
      | some d => EDouble.fin d
      | none => beginning0
    let ending2 : EDouble :=
      if hasBeg then ending0
      else
        match pd.endingVal with
        | some d => EDouble.fin d
        | none => ending0
    let overrideOldTimeline :=
      ofr.2.1 || bfr.2.1 || newOrbit.isSome || newRot.isSome ||
      hasBeg || pd.endingVal.isSome
    let evPre := evHead ++ retainOrbitEv newOrbit ++
      retainRotEv newRot rot0 syncRotationPeriod
    let phase : TimelinePhase :=
      { startTime := beginning2, endTime := ending2,
        orbitFrame := orbitFrame2, bodyFrame := bodyFrame2,
        orbit := orbit2, rotationModel := rot2 }
    installPhase overrideOldTimeline ofr.2.1 bfr.2.1 phase body.name evPre

/-- The part of `CreateTimeline` after the parent frame tree has been
resolved (solarsys.cpp lines 431-607): explicit `"Timeline"` array vs. legacy
single-phase path.  `ev0` is the trace accumulated so far. -/
def CreateTimelineWithFrameTree (body : Body) (pd : PlanetData)
    (disposition : Disposition) (parentDefault : ReferenceFrame)
    (ev0 : List Event) : Bool × List Event :=
  match pd.timelineVal with
  | some TimelineSpec.notArray =>
      (false, ev0 ++ [Event.err LogMsg.timelineMustBeArray])
  | some (TimelineSpec.arr entries) =>
      let r := CreateTimelineFromArray entries parentDefault
      match r.1 with
      | none => (false, ev0 ++ r.2)
      | some tl => (true, ev0 ++ r.2 ++ [Event.setTimeline tl])
  | none =>
      let r := legacyTimeline body pd disposition parentDefault
      (r.1, ev0 ++ r.2)

/-- Shallow embedding of `CreateTimeline` (solarsys.cpp lines 402-608):
resolve the orbit barycenter, derive the parent frame tree (the body's
`getOrCreateFrameTree()` or the star's solar-system frame tree), then build
and install the timeline via the array or legacy path. -/
def CreateTimeline (body : Body) (name : String) (system : PlanetarySystem)
    (univ : Universe) (pd : PlanetData) (disposition : Disposition) :
    Bool × List Event :=
  match (GetOrbitBarycenter name system).1 with
  | Selection.empty => (false, (GetOrbitBarycenter name system).2)
  | Selection.body b =>
      CreateTimelineWithFrameTree body pd disposition b.frameTreeDefault
        (GetOrbitBarycenter name system).2
  | Selection.star s =>
      CreateTimelineWithFrameTree body pd disposition
        (univ.starFrameTreeDefault s) (GetOrbitBarycenter name system).2

/-- The contiguity relation between adjacent phases: each phase ends exactly
where the next one starts. -/
def phaseLink (p q : TimelinePhase) : Prop := p.endTime = q.startTime

/-- Sufficient conditions for the entry at (0-based) index `idx` of a
`"Timeline"` array to produce a phase: it is a field group, it has a parsable
`"Ending"`, it has no `"Beginning"` unless it is the first entry, its frames
resolve, and `CreateOrbit` succeeds. -/
def entryOK (df : ReferenceFrame) (idx : Nat) : PhaseEntry → Prop
  | PhaseEntry.notHash => False
  | PhaseEntry.ph pd =>
      (idx ≠ 0 → pd.beginning = none) ∧ pd.ending.isSome = true ∧
      (resolveFrame pd.orbitFrameVal df).isSome = true ∧
      (resolveFrame pd.bodyFrameVal df).isSome = true ∧
      ∀ b, (pd.createOrbit b).isSome = true

/-! ### Concrete fixtures used by the witnesses and counterexamples -/

/-- A reference frame centered on star 7 with shallow nesting. -/
def cStarFrame : ReferenceFrame :=
  { id := 1, center := Center.cstar 7, posDepth := 1, orientDepth := 1 }

/-- A reference frame centered on body 3 whose nesting depth exceeds
`MaxFrameDepth` (as for a circular frame chain). -/
def cDeepFrame : ReferenceFrame :=
  { id := 2, center := Center.cbody 3, posDepth := 51, orientDepth := 51 }

/-- A default (frame-tree) reference frame centered on star 7. -/
def cDefFrame : ReferenceFrame :=
  { id := 0, center := Center.cstar 7, posDepth := 0, orientDepth := 0 }

/-- An orbit with period 365.25 (written as the exact rational 1461/4, which
kernel-reduces unlike the decimal-literal encoding). -/
def cOrbit : Orbit := { id := 10, period := mkRat 1461 4 }

/-- A body with no timeline phases yet, in the system of star 7. -/
def cBody : Body :=
  { name := "Foo", systemStarId := 7, frameTreeDefault := cDefFrame,
    timeline := ⟨[]⟩ }

/-- A planetary system of star 7 with no primary body. -/
def cSystem : PlanetarySystem := { starId := 7, primaryBody := none }

/-- A planetary system of star 7 whose primary body belongs to the system of
a different star (8): the barycenter same-star-system check fails on it. -/
def cSystemBad : PlanetarySystem :=
  { starId := 7,
    primaryBody := some
      { name := "P", systemStarId := 8, frameTreeDefault :=
        { id := 5, center := Center.cstar 8, posDepth := 0, orientDepth := 0 },
        timeline := ⟨[]⟩ } }

/-- A universe whose solar-system frame trees all default to `cDefFrame`. -/
def cUniv : Universe := { starFrameTreeDefault := fun _ => cDefFrame }

/-- A concrete timeline phase used to build existing timelines. -/
def cPhase : TimelinePhase :=
  { startTime := EDouble.negInf, endTime := EDouble.fin 100,
    orbitFrame := cStarFrame, bodyFrame := cDefFrame, orbit := cOrbit,
    rotationModel := RotationModel.custom 3 }

/-- A second concrete timeline phase, contiguous after `cPhase`. -/
def cPhase2 : TimelinePhase :=
  { startTime := EDouble.fin 100, endTime := EDouble.posInf,
    orbitFrame := cStarFrame, bodyFrame := cDefFrame, orbit := cOrbit,
    rotationModel := RotationModel.custom 4 }

/-- A body whose installed timeline has two phases. -/
def cBodyMulti : Body :=
  { name := "Bar", systemStarId := 7, frameTreeDefault := cDefFrame,
    timeline := ⟨[cPhase, cPhase2]⟩ }

/-- A body whose installed timeline has exactly one phase. -/
def cBodySingle : Body :=
  { name := "Baz", systemStarId := 7, frameTreeDefault := cDefFrame,
    timeline := ⟨[cPhase]⟩ }

/-- A catalog entry supplying nothing at all (every field absent, every
external creation failing to find data). -/
def cEmptyPD : PlanetData :=
  { timelineVal := none, orbitFrameVal := none, bodyFrameVal := none,
    createOrbit := fun _ => none, createRotation := fun _ => none,
    beginningVal := none, endingVal := none }

/-- A phase specification with `"Ending"` 1000 and no other fields; its orbit
always resolves. -/
def tPhase1 : PhaseData :=
  { beginning := none, ending := some 1000, orbitFrameVal := none,
    bodyFrameVal := none, createOrbit := fun _ => some cOrbit,
    createRotation := fun _ => none }

/-- A phase specification with no fields at all except a resolvable orbit. -/
def tPhase2 : PhaseData :=
  { beginning := none, ending := none, orbitFrameVal := none,
    bodyFrameVal := none, createOrbit := fun _ => some cOrbit,
    createRotation := fun _ => none }

/-- A phase specification that illegally supplies `"Beginning"` (used as a
non-first entry). -/
def tPhaseBadBeg : PhaseData :=
  { beginning := some 7, ending := none, orbitFrameVal := none,
    bodyFrameVal := none, createOrbit := fun _ => some cOrbit,
    createRotation := fun _ => none }

/-- A two-entry `"Timeline"` array: first entry ends at 1000, second entry has
no dates (the spec scenario). -/
def c1Entries : List PhaseEntry :=
  [PhaseEntry.ph tPhase1, PhaseEntry.ph tPhase2]

/-- The timeline assembled from `c1Entries`. -/
def c1TL : Timeline :=
  ⟨[{ startTime := EDouble.negInf, endTime := EDouble.fin 1000,
      orbitFrame := cDefFrame, bodyFrame := cDefFrame, orbit := cOrbit,
      rotationModel := RotationModel.constantOrientation },
    { startTime := EDouble.fin 1000, endTime := EDouble.posInf,
      orbitFrame := cDefFrame, bodyFrame := cDefFrame, orbit := cOrbit,
      rotationModel := RotationModel.constantOrientation }]⟩

/-- A phase specification newly attaching the deep frame `cDeepFrame` as its
orbit frame. -/
def c2Phase : PhaseData :=
  { beginning := none, ending := none, orbitFrameVal := some (some cDeepFrame),
    bodyFrameVal := none, createOrbit := fun _ => some cOrbit,
    createRotation := fun _ => none }

/-- A catalog entry whose explicit `"Timeline"` array attaches `cDeepFrame`. -/
def c2PD : PlanetData :=
  { timelineVal := some (TimelineSpec.arr [PhaseEntry.ph c2Phase]),
    orbitFrameVal := none, bodyFrameVal := none,
    createOrbit := fun _ => none, createRotation := fun _ => none,
    beginningVal := none, endingVal := none }

/-- A legacy catalog entry supplying the deep frame `cDeepFrame` as its
`"OrbitFrame"`, with a valid orbit. -/
def c2L : PlanetData :=
  { timelineVal := none, orbitFrameVal := some (some cDeepFrame),
    bodyFrameVal := none, createOrbit := fun _ => some cOrbit,
    createRotation := fun _ => none, beginningVal := none, endingVal := none }

/-- A legacy catalog entry supplying a new `"OrbitFrame"` but no orbit data
at all (the missing-orbit failure input). -/
def c3PD : PlanetData :=
  { timelineVal := none, orbitFrameVal := some (some cStarFrame),
    bodyFrameVal := none, createOrbit := fun _ => none,
    createRotation := fun _ => none, beginningVal := none, endingVal := none }

/-- A catalog entry whose `"Timeline"` array has one non-hash element. -/
def c3aPD : PlanetData :=
  { timelineVal := some (TimelineSpec.arr [PhaseEntry.notHash]),
    orbitFrameVal := none, bodyFrameVal := none,
    createOrbit := fun _ => none, createRotation := fun _ => none,
    beginningVal := none, endingVal := none }

/-- A legacy catalog entry supplying only rotation-model fields. -/
def c5PD : PlanetData :=
  { timelineVal := none, orbitFrameVal := none, bodyFrameVal := none,
    createOrbit := fun _ => none,
    createRotation := fun _ => some (RotationModel.custom 9),
    beginningVal := none, endingVal := none }

/-- A legacy Add entry: `"OrbitFrame"` centered on star 7, a valid orbit with
period 365.25, and nothing else. -/
def c8PD : PlanetData :=
  { timelineVal := none, orbitFrameVal := some (some cStarFrame),
    bodyFrameVal := none, createOrbit := fun _ => some cOrbit,
    createRotation := fun _ => none, beginningVal := none, endingVal := none }

/-- A catalog entry whose explicit `"Timeline"` array has zero entries. -/
def c9PD : PlanetData :=
  { timelineVal := some (TimelineSpec.arr []),
    orbitFrameVal := none, bodyFrameVal := none,
    createOrbit := fun _ => none, createRotation := fun _ => none,
    beginningVal := none, endingVal := none }

/-! ### Basic lemmas about `CreateTimelinePhase` -/



theorem createTimelinePhase_start_of_not_first (pd : PhaseData)
    (df : ReferenceFrame) (isLast : Bool) (prevEnd : EDouble)
    (ph : TimelinePhase)
    (h : (CreateTimelinePhase pd df false isLast prevEnd).1 = some ph) :
    ph.startTime = prevEnd := by
  unfold CreateTimelinePhase at h
  cases hb : pd.beginning with
  | some d => simp [hb] at h
  | none =>
    simp only [hb, Option.isSome_none, Bool.not_false, Bool.and_false,
      Bool.false_eq_true, if_false, Bool.not_true, Bool.true_and] at h
    split at h <;> simp_all
    split at h
    · simp at h
    split at h
    · simp at h
    split at h
    · simp at h
    simp only [Option.some.injEq] at h
    simp [← h]

@[simp] theorem retains_nil : retains [] = [] := rfl

@[simp] theorem retains_cons_retain (r : Res) (l : List Event) :
    retains (Event.retain r :: l) = r :: retains l := rfl

@[simp] theorem retains_cons_release (r : Res) (l : List Event) :
    retains (Event.release r :: l) = retains l := rfl

@[simp] theorem retains_cons_set (t : Timeline) (l : List Event) :
    retains (Event.setTimeline t :: l) = retains l := rfl

@[simp] theorem retains_cons_orbitCall (f : ReferenceFrame) (b : Bool)
    (l : List Event) : retains (Event.orbitCall f b :: l) = retains l := rfl

@[simp] theorem retains_cons_err (m : LogMsg) (l : List Event) :
    retains (Event.err m :: l) = retains l := rfl

@[simp] theorem releases_nil : releases [] = [] := rfl

@[simp] theorem releases_cons_retain (r : Res) (l : List Event) :
    releases (Event.retain r :: l) = releases l := rfl

@[simp] theorem releases_cons_release (r : Res) (l : List Event) :
    releases (Event.release r :: l) = r :: releases l := rfl

@[simp] theorem releases_cons_set (t : Timeline) (l : List Event) :
    releases (Event.setTimeline t :: l) = releases l := rfl

@[simp] theorem releases_cons_orbitCall (f : ReferenceFrame) (b : Bool)
    (l : List Event) : releases (Event.orbitCall f b :: l) = releases l := rfl

@[simp] theorem releases_cons_err (m : LogMsg) (l : List Event) :
    releases (Event.err m :: l) = releases l := rfl

@[simp] theorem installs_nil : installs [] = [] := rfl

@[simp] theorem installs_cons_retain (r : Res) (l : List Event) :
    installs (Event.retain r :: l) = installs l := rfl

@[simp] theorem installs_cons_release (r : Res) (l : List Event) :
    installs (Event.release r :: l) = installs l := rfl

@[simp] theorem installs_cons_set (t : Timeline) (l : List Event) :
    installs (Event.setTimeline t :: l) = t :: installs l := rfl

@[simp] theorem installs_cons_orbitCall (f : ReferenceFrame) (b : Bool)
    (l : List Event) : installs (Event.orbitCall f b :: l) = installs l := rfl

@[simp] theorem installs_cons_err (m : LogMsg) (l : List Event) :
    installs (Event.err m :: l) = installs l := rfl

@[simp] theorem errorsOf_nil : errorsOf [] = [] := rfl

@[simp] theorem errorsOf_cons_retain (r : Res) (l : List Event) :
    errorsOf (Event.retain r :: l) = errorsOf l := rfl

@[simp] theorem errorsOf_cons_release (r : Res) (l : List Event) :
    errorsOf (Event.release r :: l) = errorsOf l := rfl

@[simp] theorem errorsOf_cons_set (t : Timeline) (l : List Event) :
    errorsOf (Event.setTimeline t :: l) = errorsOf l := rfl

@[simp] theorem errorsOf_cons_orbitCall (f : ReferenceFrame) (b : Bool)
    (l : List Event) : errorsOf (Event.orbitCall f b :: l) = errorsOf l := rfl

@[simp] theorem errorsOf_cons_err (m : LogMsg) (l : List Event) :
    errorsOf (Event.err m :: l) = m :: errorsOf l := rfl

@[simp] theorem retains_append (a b : List Event) :
    retains (a ++ b) = retains a ++ retains b := by
  simp [retains, List.filterMap_append]

@[simp] theorem releases_append (a b : List Event) :
    releases (a ++ b) = releases a ++ releases b := by
  simp [releases, List.filterMap_append]

@[simp] theorem installs_append (a b : List Event) :
    installs (a ++ b) = installs a ++ installs b := by
  simp [installs, List.filterMap_append]

@[simp] theorem errorsOf_append (a b : List Event) :
    errorsOf (a ++ b) = errorsOf a ++ errorsOf b := by
  simp [errorsOf, List.filterMap_append]

@[simp] theorem circularCheck_mem_orbitCall (newOF newBF : Bool)
    (phase : TimelinePhase) (bodyName : String) (evSet : List Event)
    (f : ReferenceFrame) (b : Bool) :
    (Event.orbitCall f b ∈ (circularCheck newOF newBF phase bodyName evSet).2) ↔
      Event.orbitCall f b ∈ evSet := by
  unfold circularCheck
  split
  · simp
  · split <;> simp

@[simp] theorem circularCheck_installs (newOF newBF : Bool)
    (phase : TimelinePhase) (bodyName : String) (evSet : List Event) :
    installs (circularCheck newOF newBF phase bodyName evSet).2 =
      installs evSet := by
  unfold circularCheck
  split
  · simp
  · split <;> simp

@[simp] theorem installPhase_mem_orbitCall (ov nof nbf : Bool)
    (ph : TimelinePhase) (nm : String) (evPre : List Event)
    (f : ReferenceFrame) (b : Bool) :
    (Event.orbitCall f b ∈ (installPhase ov nof nbf ph nm evPre).2) ↔
      Event.orbitCall f b ∈ evPre := by
  unfold installPhase
  split <;> simp

@[simp] theorem installPhase_installs (ov nof nbf : Bool) (ph : TimelinePhase)
    (nm : String) (evPre : List Event) :
    installs (installPhase ov nof nbf ph nm evPre).2 =
      installs evPre ++ (if ov = true then [Timeline.mk [ph]] else []) := by
  unfold installPhase
  split <;> simp_all

theorem createTimelinePhase_fail (pd : PhaseData) (df : ReferenceFrame)
    (isFirst isLast : Bool) (prevEnd : EDouble)
    (h : (isFirst = false ∧ pd.beginning.isSome = true) ∨
         (isLast = false ∧ pd.ending = none)) :
    (CreateTimelinePhase pd df isFirst isLast prevEnd).1 = none := by
  rcases h with ⟨rfl, hs⟩ | ⟨rfl, he⟩
  · simp [CreateTimelinePhase, hs]
  · unfold CreateTimelinePhase
    rcases hb : pd.beginning with _ | bd <;>
    cases isFirst <;>
    simp_all

theorem createTimelinePhase_ok (pd : PhaseData) (df : ReferenceFrame)
    (isFirst isLast : Bool) (prevEnd : EDouble)
    (hbeg : isFirst = false → pd.beginning = none)
    (hend : pd.ending.isSome = true)
    (hof : (resolveFrame pd.orbitFrameVal df).isSome = true)
    (hbf : (resolveFrame pd.bodyFrameVal df).isSome = true)
    (horb : ∀ b, (pd.createOrbit b).isSome = true) :
    ((CreateTimelinePhase pd df isFirst isLast prevEnd).1).isSome = true := by
  have hb : (!isFirst && pd.beginning.isSome) = false := by
    cases isFirst with
    | true => simp
    | false => simp [hbeg rfl]
  unfold CreateTimelinePhase
  simp only [hb, Bool.false_eq_true, if_false, hend, Bool.not_true,
    Bool.and_false]
  rcases h1 : resolveFrame pd.orbitFrameVal df with _ | f1
  · rw [h1] at hof; simp at hof
  rcases h2 : resolveFrame pd.bodyFrameVal df with _ | f2
  · rw [h2] at hbf; simp at hbf
  rcases h3 : pd.createOrbit (centerIsStar f1) with _ | o
  · have := horb (centerIsStar f1); rw [h3] at this; simp at this
  simp [h3]

theorem createTimelinePhase_counts_fail (pd : PhaseData) (df : ReferenceFrame)
    (isFirst isLast : Bool) (prevEnd : EDouble) (pev : List Event)
    (h : CreateTimelinePhase pd df isFirst isLast prevEnd = (none, pev)) :
    ∀ r : Res, (retains pev).count r = (releases pev).count r := by
  unfold CreateTimelinePhase at h
  rcases hb : pd.beginning with _ | bd <;>
  rcases hed : pd.ending with _ | ed <;>
  cases isFirst <;> cases isLast <;>
  rcases h1 : resolveFrame pd.orbitFrameVal df with _ | f1 <;>
  rcases h2 : resolveFrame pd.bodyFrameVal df with _ | f2 <;>
  (try simp_all [retains, releases, List.count_cons])
  all_goals (try (rw [← h]; simp [retains, releases, List.count_cons]))
  all_goals
    rcases h3 : pd.createOrbit (centerIsStar f1) with _ | o <;>
    (try simp_all [retains, releases, List.count_cons]) <;>
    (try (rw [← h]; simp [retains, releases, List.count_cons])) <;>
    (try omega)

theorem createTimelinePhase_counts_ok (pd : PhaseData) (df : ReferenceFrame)
    (isFirst isLast : Bool) (prevEnd : EDouble) (ph : TimelinePhase)
    (pev : List Event)
    (h : CreateTimelinePhase pd df isFirst isLast prevEnd = (some ph, pev)) :
    ∀ r : Res,
      (retains pev).count r = (releases pev).count r + (phaseRes ph).count r := by
  unfold CreateTimelinePhase at h
  rcases hb : pd.beginning with _ | bd <;>
  rcases hed : pd.ending with _ | ed <;>
  cases isFirst <;> cases isLast <;>
  rcases h1 : resolveFrame pd.orbitFrameVal df with _ | f1 <;>
  rcases h2 : resolveFrame pd.bodyFrameVal df with _ | f2 <;>
  (try simp_all [retains, releases, phaseRes, List.count_cons])
  all_goals (try (rw [← h]; simp [retains, releases, phaseRes, List.count_cons]))
  all_goals
    rcases h3 : pd.createOrbit (centerIsStar f1) with _ | o <;>
    (try simp_all [retains, releases, phaseRes, List.count_cons]) <;>
    (try (obtain ⟨rfl, rfl⟩ := h)) <;>
    (try (rw [← h]; simp [retains, releases, phaseRes, List.count_cons])) <;>
    (try simp [retains, releases, phaseRes, List.count_cons]) <;>
    (try omega)

theorem createTimelinePhase_orbitCall (pd : PhaseData) (df : ReferenceFrame)
    (isFirst isLast : Bool) (prevEnd : EDouble) (f : ReferenceFrame) (b : Bool)
    (h : Event.orbitCall f b ∈ (CreateTimelinePhase pd df isFirst isLast prevEnd).2) :
    b = centerIsStar f := by
  unfold CreateTimelinePhase at h
  rcases hb : pd.beginning with _ | bd <;>
  rcases hed : pd.ending with _ | ed <;>
  cases isFirst <;> cases isLast <;>
  rcases h1 : resolveFrame pd.orbitFrameVal df with _ | f1 <;>
  rcases h2 : resolveFrame pd.bodyFrameVal df with _ | f2 <;>
  (try simp_all)
  all_goals (try (rw [← h] at *; simp_all))
  all_goals
    rcases h3 : pd.createOrbit (centerIsStar f1) with _ | o <;>
    simp_all

theorem createTimelinePhase_installs (pd : PhaseData) (df : ReferenceFrame)
    (isFirst isLast : Bool) (prevEnd : EDouble) :
    installs (CreateTimelinePhase pd df isFirst isLast prevEnd).2 = [] := by
  unfold CreateTimelinePhase
  rcases hb : pd.beginning with _ | bd <;>
  rcases hed : pd.ending with _ | ed <;>
  cases isFirst <;> cases isLast <;>
  rcases h1 : resolveFrame pd.orbitFrameVal df with _ | f1 <;>
  rcases h2 : resolveFrame pd.bodyFrameVal df with _ | f2 <;>
  (try simp_all [installs])
  all_goals
    rcases h3 : pd.createOrbit (centerIsStar f1) with _ | o <;>
    simp_all [installs]

/-! ### Lemmas about `tlgo` / `CreateTimelineFromArray` -/

@[simp] theorem installs_releaseTimeline (acc : List TimelinePhase) :
    installs (releaseTimeline acc) = [] := by
  induction acc with
  | nil => rfl
  | cons p ps ih => simp only [releaseTimeline, releasePhase]; simp [ih]

@[simp] theorem retains_releaseTimeline (acc : List TimelinePhase) :
    retains (releaseTimeline acc) = [] := by
  induction acc with
  | nil => rfl
  | cons p ps ih => simp only [releaseTimeline, releasePhase]; simp [ih]

@[simp] theorem errorsOf_releaseTimeline (acc : List TimelinePhase) :
    errorsOf (releaseTimeline acc) = [] := by
  induction acc with
  | nil => rfl
  | cons p ps ih => simp only [releaseTimeline, releasePhase]; simp [ih]

@[simp] theorem releases_releaseTimeline (acc : List TimelinePhase) :
    releases (releaseTimeline acc) = heldRes acc := by
  induction acc with
  | nil => rfl
  | cons p ps ih =>
      simp only [releaseTimeline, releasePhase, heldRes, phaseRes]
      simp [ih]

theorem heldRes_append (a b : List TimelinePhase) :
    heldRes (a ++ b) = heldRes a ++ heldRes b := by
  induction a with
  | nil => simp [heldRes]
  | cons p ps ih => simp [heldRes, ih]

theorem orbitCall_not_mem_releaseTimeline (acc : List TimelinePhase)
    (f : ReferenceFrame) (b : Bool) :
    Event.orbitCall f b ∉ releaseTimeline acc := by
  induction acc with
  | nil => simp [releaseTimeline]
  | cons p ps ih => simp [releaseTimeline, releasePhase, ih]

theorem tlgo_installs (df : ReferenceFrame) (total : Nat) :
    ∀ (entries : List PhaseEntry) (i : Nat) (prevEnd : EDouble)
      (acc : List TimelinePhase) (ev : List Event),
      installs (tlgo df total entries i prevEnd acc ev).2 = installs ev := by
  intro entries
  induction entries with
  | nil => intro i prevEnd acc ev; simp [tlgo]
  | cons e rest ih =>
    intro i prevEnd acc ev
    cases e with
    | notHash => simp [tlgo]
    | ph pd =>
      have hpi := createTimelinePhase_installs pd df (i == 0) (i + 1 == total) prevEnd
      simp only [tlgo]
      rcases hcp : CreateTimelinePhase pd df (i == 0) (i + 1 == total) prevEnd with ⟨r, pev⟩
      rw [hcp] at hpi
      cases r with
      | none => simp [hpi]
      | some ph => rw [ih]; simp [hpi]

theorem tlgo_orbitCall (df : ReferenceFrame) (total : Nat) :
    ∀ (entries : List PhaseEntry) (i : Nat) (prevEnd : EDouble)
      (acc : List TimelinePhase) (ev : List Event),
      (∀ f b, Event.orbitCall f b ∈ ev → b = centerIsStar f) →
      ∀ f b, Event.orbitCall f b ∈ (tlgo df total entries i prevEnd acc ev).2 →
        b = centerIsStar f := by
  intro entries
  induction entries with
  | nil => intro i prevEnd acc ev hev f b hm; exact hev f b (by simpa [tlgo] using hm)
  | cons e rest ih =>
    intro i prevEnd acc ev hev f b hm
    cases e with
    | notHash =>
      simp only [tlgo, List.mem_append] at hm
      rcases hm with (hm | hm) | hm
      · exact hev f b hm
      · simp at hm
      · exact absurd hm (orbitCall_not_mem_releaseTimeline acc f b)
    | ph pd =>
      have hpo := createTimelinePhase_orbitCall pd df (i == 0) (i + 1 == total) prevEnd f b
      simp only [tlgo] at hm
      rcases hcp : CreateTimelinePhase pd df (i == 0) (i + 1 == total) prevEnd with ⟨r, pev⟩
      rw [hcp] at hm hpo
      cases r with
      | none =>
        simp only [List.mem_append] at hm
        rcases hm with ((hm | hm) | hm) | hm
        · exact hev f b hm
        · exact hpo hm
        · simp at hm
        · exact absurd hm (orbitCall_not_mem_releaseTimeline acc f b)
      | some ph =>
        refine ih (i + 1) ph.endTime (acc ++ [ph]) (ev ++ pev) ?_ f b hm
        intro f2 b2 hmem
        rcases List.mem_append.1 hmem with hmem | hmem
        · exact hev f2 b2 hmem
        · exact createTimelinePhase_orbitCall pd df (i == 0) (i + 1 == total)
            prevEnd f2 b2 (by rw [hcp]; exact hmem)

theorem tlgo_counts_fail (df : ReferenceFrame) (total : Nat) :
    ∀ (entries : List PhaseEntry) (i : Nat) (prevEnd : EDouble)
      (acc : List TimelinePhase) (ev ev2 : List Event),
      tlgo df total entries i prevEnd acc ev = (none, ev2) →
      (∀ r, (retains ev).count r = (releases ev).count r + (heldRes acc).count r) →
      ∀ r, (retains ev2).count r = (releases ev2).count r := by
  intro entries
  induction entries with
  | nil => intro i prevEnd acc ev ev2 h; simp [tlgo] at h
  | cons e rest ih =>
    intro i prevEnd acc ev ev2 h hinv
    cases e with
    | notHash =>
      simp only [tlgo, Prod.mk.injEq] at h
      obtain ⟨-, rfl⟩ := h
      intro r
      have h0 := hinv r
      simp only [retains_append, releases_append, List.count_append,
        retains_releaseTimeline, releases_releaseTimeline, retains_cons_err,
        retains_nil, releases_cons_err, releases_nil, List.count_nil] at h0 ⊢
      omega
    | ph pd =>
      simp only [tlgo] at h
      rcases hcp : CreateTimelinePhase pd df (i == 0) (i + 1 == total) prevEnd with ⟨r0, pev⟩
      rw [hcp] at h
      cases r0 with
      | none =>
        have hc := createTimelinePhase_counts_fail pd df (i == 0) (i + 1 == total) prevEnd pev hcp
        simp only [Prod.mk.injEq] at h
        obtain ⟨-, rfl⟩ := h
        intro r
        have h1 := hinv r
        have h2 := hc r
        simp only [retains_append, releases_append, List.count_append,
          retains_releaseTimeline, releases_releaseTimeline, retains_cons_err,
          retains_nil, releases_cons_err, releases_nil, List.count_nil] at h1 h2 ⊢
        omega
      | some ph =>
        have hc := createTimelinePhase_counts_ok pd df (i == 0) (i + 1 == total) prevEnd ph pev hcp
        refine ih (i + 1) ph.endTime (acc ++ [ph]) (ev ++ pev) ev2 h ?_
        intro r
        have h1 := hinv r
        have h2 := hc r
        simp only [retains_append, releases_append, List.count_append,
          heldRes_append] at h1 h2 ⊢
        simp only [heldRes, List.append_nil, List.count_append]
        omega

theorem tlgo_length (df : ReferenceFrame) (total : Nat) :
    ∀ (entries : List PhaseEntry) (i : Nat) (prevEnd : EDouble)
      (acc : List TimelinePhase) (ev : List Event) (tl : Timeline)
      (ev2 : List Event),
      tlgo df total entries i prevEnd acc ev = (some tl, ev2) →
      tl.phases.length = acc.length + entries.length := by
  intro entries
  induction entries with
  | nil =>
    intro i prevEnd acc ev tl ev2 h
    simp only [tlgo, Prod.mk.injEq, Option.some.injEq] at h
    obtain ⟨rfl, -⟩ := h
    simp
  | cons e rest ih =>
    intro i prevEnd acc ev tl ev2 h
    cases e with
    | notHash => simp [tlgo] at h
    | ph pd =>
      simp only [tlgo] at h
      rcases hcp : CreateTimelinePhase pd df (i == 0) (i + 1 == total) prevEnd
        with ⟨r0, pev⟩
      rw [hcp] at h
      cases r0 with
      | none => simp at h
      | some ph =>
        have := ih (i + 1) ph.endTime (acc ++ [ph]) (ev ++ pev) tl ev2 h
        simp only [List.length_append, List.length_cons, List.length_nil] at this ⊢
        omega

theorem tlgo_chain (df : ReferenceFrame) (total : Nat) :
    ∀ (entries : List PhaseEntry) (i : Nat) (prevEnd : EDouble)
      (acc : List TimelinePhase) (ev : List Event) (tl : Timeline)
      (ev2 : List Event),
      tlgo df total entries i prevEnd acc ev = (some tl, ev2) →
      List.Chain' phaseLink acc →
      (∀ p ∈ acc.getLast?, p.endTime = prevEnd) →
      (acc = [] ∨ i ≠ 0) →
      List.Chain' phaseLink tl.phases := by
  intro entries
  induction entries with
  | nil =>
    intro i prevEnd acc ev tl ev2 h hch _ _
    simp only [tlgo, Prod.mk.injEq, Option.some.injEq] at h
    obtain ⟨rfl, -⟩ := h
    exact hch
  | cons e rest ih =>
    intro i prevEnd acc ev tl ev2 h hch hlast hi
    cases e with
    | notHash => simp [tlgo] at h
    | ph pd =>
      simp only [tlgo] at h
      rcases hcp : CreateTimelinePhase pd df (i == 0) (i + 1 == total) prevEnd
        with ⟨r0, pev⟩
      rw [hcp] at h
      cases r0 with
      | none => simp at h
      | some ph =>
        refine ih (i + 1) ph.endTime (acc ++ [ph]) (ev ++ pev) tl ev2 h ?_ ?_
          (Or.inr (by omega))
        · rw [List.chain'_append]
          refine ⟨hch, List.chain'_singleton _, ?_⟩
          intro x hx y hy
          simp only [List.head?_cons, Option.mem_def, Option.some.injEq] at hy
          subst hy
          rcases hi with rfl | hi
          · simp at hx
          · have hfb : (i == 0) = false := by
              simp only [beq_eq_false_iff_ne, ne_eq]
              exact hi
            rw [hfb] at hcp
            have hstart : ph.startTime = prevEnd :=
              createTimelinePhase_start_of_not_first pd df (i + 1 == total)
                prevEnd ph (by rw [hcp])
            have hxe := hlast x hx
            unfold phaseLink
            rw [hxe, hstart]
        · intro p hp
          rw [List.getLast?_concat] at hp
          simp only [Option.mem_def, Option.some.injEq] at hp
          subst hp
          rfl

theorem tlgo_skip (df : ReferenceFrame) (total : Nat) :
    ∀ (pre rest : List PhaseEntry) (i : Nat) (prevEnd : EDouble)
      (acc : List TimelinePhase) (ev : List Event),
      (∀ (j : Nat) (hj : j < pre.length), entryOK df (i + j) (pre.get ⟨j, hj⟩)) →
      ∃ prevE acc2 ev2,
        tlgo df total (pre ++ rest) i prevEnd acc ev =
          tlgo df total rest (i + pre.length) prevE acc2 (ev ++ ev2) := by
  intro pre
  induction pre with
  | nil =>
    intro rest i prevEnd acc ev _
    exact ⟨prevEnd, acc, [], by simp⟩
  | cons e pre2 ih =>
    intro rest i prevEnd acc ev hOK
    have h0 := hOK 0 (by simp)
    cases e with
    | notHash => exact absurd h0 (by simp [entryOK])
    | ph pd =>
      simp only [List.get] at h0
      obtain ⟨hbeg, hend, hof, hbf, horb⟩ := h0
      have hbg : (i == 0) = false → pd.beginning = none := by
        intro hf
        apply hbeg
        simp only [beq_eq_false_iff_ne, ne_eq] at hf
        omega
      have hsome := createTimelinePhase_ok pd df (i == 0) (i + 1 == total)
        prevEnd hbg hend hof hbf horb
      rcases hcp : CreateTimelinePhase pd df (i == 0) (i + 1 == total) prevEnd
        with ⟨r0, pev⟩
      rw [hcp] at hsome
      cases r0 with
      | none => simp at hsome
      | some ph =>
        have hstep :
            tlgo df total ((PhaseEntry.ph pd :: pre2) ++ rest) i prevEnd acc ev =
            tlgo df total (pre2 ++ rest) (i + 1) ph.endTime (acc ++ [ph])
              (ev ++ pev) := by
          simp only [List.cons_append, tlgo, hcp]
          rfl
        have hnext : ∀ (j : Nat) (hj : j < pre2.length),
            entryOK df ((i + 1) + j) (pre2.get ⟨j, hj⟩) := by
          intro j hj
          have := hOK (j + 1) (by simp; omega)
          simp only [List.get] at this
          have heq : i + (j + 1) = (i + 1) + j := by omega
          rw [heq] at this
          exact this
        obtain ⟨prevE, acc2, ev2, hrec⟩ :=
          ih rest (i + 1) ph.endTime (acc ++ [ph]) (ev ++ pev) hnext
        refine ⟨prevE, acc2, pev ++ ev2, ?_⟩
        rw [hstep, hrec]
        have heq2 : (i + 1) + pre2.length = i + (pre2.length + 1) := by omega
        rw [heq2, List.append_assoc]
        simp

theorem tlgo_fail_step (df : ReferenceFrame) (total : Nat) (pd : PhaseData)
    (rest : List PhaseEntry) (i : Nat) (prevEnd : EDouble)
    (acc : List TimelinePhase) (ev : List Event)
    (hfail : (CreateTimelinePhase pd df (i == 0) (i + 1 == total) prevEnd).1 = none) :
    (tlgo df total (PhaseEntry.ph pd :: rest) i prevEnd acc ev).1 = none ∧
    LogMsg.phaseFailed (i + 1) ∈
      errorsOf (tlgo df total (PhaseEntry.ph pd :: rest) i prevEnd acc ev).2 := by
  simp only [tlgo]
  rcases hcp : CreateTimelinePhase pd df (i == 0) (i + 1 == total) prevEnd
    with ⟨r0, pev⟩
  rw [hcp] at hfail
  cases r0 with
  | none => simp
  | some ph => simp at hfail

/-! ### Lemmas about `GetOrbitBarycenter` -/

theorem getOrbitBarycenter_trace (name : String) (system : PlanetarySystem) :
    (GetOrbitBarycenter name system).2 = [] ∨
    (GetOrbitBarycenter name system).2 =
      [Event.err (LogMsg.barycenterMismatch name)] := by
  unfold GetOrbitBarycenter
  rcases system.primaryBody with _ | b
  · simp
  · simp only []
    split <;> simp

/-! ### Component lemmas for the legacy path -/

@[simp] theorem legacyFrameField_installs (fv : Option (Option ReferenceFrame))
    (inh : Option ReferenceFrame) :
    installs (legacyFrameField fv inh).2.2 = [] := by
  unfold legacyFrameField
  rcases fv with _ | r
  · rfl
  · rcases r with _ | f <;> rfl

@[simp] theorem legacyFrameField_no_orbitCall
    (fv : Option (Option ReferenceFrame)) (inh : Option ReferenceFrame)
    (f : ReferenceFrame) (b : Bool) :
    Event.orbitCall f b ∉ (legacyFrameField fv inh).2.2 := by
  unfold legacyFrameField
  rcases fv with _ | r
  · simp
  · rcases r with _ | g <;> simp

@[simp] theorem legacyFrameField_errorsOf (fv : Option (Option ReferenceFrame))
    (inh : Option ReferenceFrame) :
    errorsOf (legacyFrameField fv inh).2.2 = [] := by
  unfold legacyFrameField
  rcases fv with _ | r
  · rfl
  · rcases r with _ | f <;> rfl

@[simp] theorem retainOrbitEv_installs (o : Option Orbit) :
    installs (retainOrbitEv o) = [] := by
  rcases o with _ | o <;> rfl

@[simp] theorem retainOrbitEv_no_orbitCall (o : Option Orbit)
    (f : ReferenceFrame) (b : Bool) :
    Event.orbitCall f b ∉ retainOrbitEv o := by
  rcases o with _ | o <;> simp [retainOrbitEv]

@[simp] theorem retainOrbitEv_errorsOf (o : Option Orbit) :
    errorsOf (retainOrbitEv o) = [] := by
  rcases o with _ | o <;> rfl

@[simp] theorem retainRotEv_installs (nr r0 : Option RotationModel) (p : Rat) :
    installs (retainRotEv nr r0 p) = [] := by
  rcases nr with _ | r <;> rcases r0 with _ | r2 <;> rfl

@[simp] theorem retainRotEv_no_orbitCall (nr r0 : Option RotationModel)
    (p : Rat) (f : ReferenceFrame) (b : Bool) :
    Event.orbitCall f b ∉ retainRotEv nr r0 p := by
  rcases nr with _ | r <;> rcases r0 with _ | r2 <;> simp [retainRotEv]

@[simp] theorem retainRotEv_errorsOf (nr r0 : Option RotationModel) (p : Rat) :
    errorsOf (retainRotEv nr r0 p) = [] := by
  rcases nr with _ | r <;> rcases r0 with _ | r2 <;> rfl

theorem mem_ite_prod_snd {c : Prop} [Decidable c] {x : Event}
    {a b : Bool × List Event}
    (h : x ∈ (if c then a else b).2) : x ∈ a.2 ∨ x ∈ b.2 := by
  by_cases hc : c
  · rw [if_pos hc] at h; exact Or.inl h
  · rw [if_neg hc] at h; exact Or.inr h

theorem mem_installs_ite_prod {c : Prop} [Decidable c] {t : Timeline}
    {a b : Bool × List Event}
    (h : t ∈ installs (if c then a else b).2) :
    t ∈ installs a.2 ∨ t ∈ installs b.2 := by
  by_cases hc : c
  · rw [if_pos hc] at h; exact Or.inl h
  · rw [if_neg hc] at h; exact Or.inr h

theorem legacy_orbitCall (body : Body) (pd : PlanetData)
    (disposition : Disposition) (parentDefault : ReferenceFrame)
    (f : ReferenceFrame) (b : Bool)
    (h : Event.orbitCall f b ∈ (legacyTimeline body pd disposition parentDefault).2) :
    b = centerIsStar f := by
  unfold legacyTimeline at h
  split at h <;>
    (try split at h) <;>
    (try split at h) <;>
    (try split at h)
  all_goals (try (rcases mem_ite_prod_snd h with h | h))
  all_goals
    (try simp only [installPhase_mem_orbitCall, List.mem_append,
      List.mem_singleton, List.mem_cons, legacyFrameField_no_orbitCall,
      retainOrbitEv_no_orbitCall, retainRotEv_no_orbitCall, or_false,
      false_or] at h) <;>
    simp_all

theorem legacy_installs_singleton (body : Body) (pd : PlanetData)
    (disposition : Disposition) (parentDefault : ReferenceFrame)
    (tl : Timeline)
    (h : tl ∈ installs (legacyTimeline body pd disposition parentDefault).2) :
    ∃ ph : TimelinePhase, tl.phases = [ph] := by
  unfold legacyTimeline at h
  split at h <;>
    (try split at h) <;>
    (try split at h) <;>
    (try split at h)
  all_goals (try (rcases mem_installs_ite_prod h with h | h))
  all_goals
    (try simp only [installPhase_installs, installs_append,
      legacyFrameField_installs, retainOrbitEv_installs, retainRotEv_installs,
      installs_cons_set, installs_nil, List.mem_append, List.mem_singleton,
      List.mem_cons] at h) <;>
    simp_all

/-! ### Lemmas about `GetOrbitBarycenter` traces and `CreateTimeline` -/

theorem getOrbitBarycenter_no_orbitCall (name : String)
    (system : PlanetarySystem) (f : ReferenceFrame) (b : Bool) :
    Event.orbitCall f b ∉ (GetOrbitBarycenter name system).2 := by
  rcases getOrbitBarycenter_trace name system with h | h <;> simp [h]

theorem getOrbitBarycenter_installs (name : String)
    (system : PlanetarySystem) :
    installs (GetOrbitBarycenter name system).2 = [] := by
  rcases getOrbitBarycenter_trace name system with h | h <;> simp [h]

theorem getOrbitBarycenter_retains (name : String)
    (system : PlanetarySystem) :
    retains (GetOrbitBarycenter name system).2 = [] := by
  rcases getOrbitBarycenter_trace name system with h | h <;> simp [h]

theorem getOrbitBarycenter_releases (name : String)
    (system : PlanetarySystem) :
    releases (GetOrbitBarycenter name system).2 = [] := by
  rcases getOrbitBarycenter_trace name system with h | h <;> simp [h]

/-! ### Claim theorems -/

/-- C10: In `GetOrbitBarycenter`, whenever the parent system has no primary
body, the resolved barycenter is the system's own star, so the same-star-system
check in the star branch always passes; `GetOrbitBarycenter` returns the empty
`Selection` (causing timeline construction to fail) only when the system has a
primary body whose own system's star differs from the parent system's star. -/
theorem claim_C10_barycenter (name : String) (system : PlanetarySystem) :
    (system.primaryBody = none →
      GetOrbitBarycenter name system = (Selection.star system.starId, [])) ∧
    ((GetOrbitBarycenter name system).1 = Selection.empty ↔
      ∃ b, system.primaryBody = some b ∧ b.systemStarId ≠ system.starId) ∧
    (∀ (body : Body) (univ : Universe) (pd : PlanetData)
        (disposition : Disposition),
      (GetOrbitBarycenter name system).1 = Selection.empty →
      (CreateTimeline body name system univ pd disposition).1 = false) := by
  refine ⟨?_, ?_, ?_⟩
  · intro h
    unfold GetOrbitBarycenter
    simp [h]
  · unfold GetOrbitBarycenter
    rcases hp : system.primaryBody with _ | b
    · simp
    · simp only []
      split
      · simp_all
        omega
      · simp_all
  · intro body univ pd disposition h
    unfold CreateTimeline
    rw [h]

/-- C1: For every phase array from which `CreateTimelineFromArray`
successfully assembles a `Timeline`, the phases are temporally contiguous: for
every index `i`, `phase[i].end` equals `phase[i+1].start`, because each
phase's start time is taken from the previous phase's end time rather than
from user input. -/
theorem claim_C1_phases_contiguous (entries : List PhaseEntry)
    (df : ReferenceFrame) (tl : Timeline)
    (h : (CreateTimelineFromArray entries df).1 = some tl) :
    ∀ (i : Nat) (hi : i + 1 < tl.phases.length),
      (tl.phases.get ⟨i, Nat.lt_of_succ_lt hi⟩).endTime =
      (tl.phases.get ⟨i + 1, hi⟩).startTime := by
  rcases hr : CreateTimelineFromArray entries df with ⟨r0, ev2⟩
  rw [hr] at h
  simp only [] at h
  subst h
  have hch : List.Chain' phaseLink tl.phases := by
    refine tlgo_chain df entries.length entries 0 EDouble.negInf [] [] tl ev2
      hr ?_ ?_ (Or.inl rfl)
    · exact List.chain'_nil
    · intro p hp
      simp at hp
  intro i hi
  have := List.chain'_iff_get.1 hch i (by omega)
  exact this

/-- C7: In both the phase-array path and the legacy single-phase path, the
`usePlanetUnits` flag passed to `CreateOrbit` is true exactly when the
resolved orbit frame's center (after applying the default frame when the
field is absent) is a star; the unit choice is a function of the resolved
frame, not of any per-object flag.  Formally: every `CreateOrbit` call event
in the trace of `CreateTimeline` carries the flag `centerIsStar` of the
resolved orbit frame it was computed from. -/
theorem claim_C7_orbit_units (body : Body) (name : String)
    (system : PlanetarySystem) (univ : Universe) (pd : PlanetData)
    (disposition : Disposition) (f : ReferenceFrame) (b : Bool)
    (h : Event.orbitCall f b ∈
      (CreateTimeline body name system univ pd disposition).2) :
    b = centerIsStar f := by
  have hnb := getOrbitBarycenter_no_orbitCall name system f b
  have key : ∀ (pdf : ReferenceFrame),
      Event.orbitCall f b ∈
        (CreateTimelineWithFrameTree body pd disposition pdf
          (GetOrbitBarycenter name system).2).2 →
      b = centerIsStar f := by
    intro pdf hm
    unfold CreateTimelineWithFrameTree at hm
    rcases htl : pd.timelineVal with _ | ts
    · rw [htl] at hm
      simp only [] at hm
      rcases List.mem_append.1 hm with hm | hm
      · exact absurd hm hnb
      · exact legacy_orbitCall body pd disposition pdf f b hm
    · rw [htl] at hm
      cases ts with
      | notArray =>
        simp only [List.mem_append, List.mem_singleton] at hm
        rcases hm with hm | hm
        · exact absurd hm hnb
        · simp at hm
      | arr entries =>
        simp only [] at hm
        rcases hra : CreateTimelineFromArray entries pdf with ⟨ra, reva⟩
        rw [hra] at hm
        have hrev : ∀ ra2, CreateTimelineFromArray entries pdf = (ra2, reva) →
            Event.orbitCall f b ∈ reva → b = centerIsStar f := by
          intro ra2 hra2 hmem
          refine tlgo_orbitCall pdf entries.length entries 0 EDouble.negInf
            [] [] ?_ f b ?_
          · intro f2 b2 hmem2; simp at hmem2
          · show Event.orbitCall f b ∈
              (tlgo pdf entries.length entries 0 EDouble.negInf [] []).2
            have : (tlgo pdf entries.length entries 0 EDouble.negInf [] []).2 =
                reva := by
              show (CreateTimelineFromArray entries pdf).2 = reva
              rw [hra2]
            rw [this]
            exact hmem
        cases ra with
        | none =>
          rcases List.mem_append.1 hm with hm | hm
          · exact absurd hm hnb
          · exact hrev none hra hm
        | some tla =>
          simp only [List.append_assoc, List.mem_append,
            List.mem_singleton] at hm
          rcases hm with hm | hm | hm
          · exact absurd hm hnb
          · exact hrev (some tla) hra hm
          · simp at hm
  unfold CreateTimeline at h
  rcases hb : (GetOrbitBarycenter name system).1 with _ | b0 | s0 <;>
    rw [hb] at h
  · exact absurd h hnb
  · exact key b0.frameTreeDefault h
  · exact key (univ.starFrameTreeDefault s0) h

/-- C6: For every phase array, `CreateTimelinePhase` fails (returns no phase)
when a phase other than the first specifies a `"Beginning"` field, and when a
phase other than the last omits the `"Ending"` field; in either case the whole
timeline construction aborts (no timeline is assembled, so none is installed)
and the failure is reported with the failing phase's 1-based index. -/
theorem claim_C6_phase_date_errors :
    (∀ (pd : PhaseData) (df : ReferenceFrame) (isLast : Bool)
        (prevEnd : EDouble), pd.beginning.isSome = true →
      (CreateTimelinePhase pd df false isLast prevEnd).1 = none) ∧
    (∀ (pd : PhaseData) (df : ReferenceFrame) (isFirst : Bool)
        (prevEnd : EDouble), pd.ending = none →
      (CreateTimelinePhase pd df isFirst false prevEnd).1 = none) ∧
    (∀ (df : ReferenceFrame) (pre : List PhaseEntry) (pdx : PhaseData)
        (post : List PhaseEntry),
      (∀ (j : Nat) (hj : j < pre.length), entryOK df j (pre.get ⟨j, hj⟩)) →
      ((pre ≠ [] ∧ pdx.beginning.isSome = true) ∨
       (post ≠ [] ∧ pdx.ending = none)) →
      (CreateTimelineFromArray (pre ++ PhaseEntry.ph pdx :: post) df).1 = none ∧
      LogMsg.phaseFailed (pre.length + 1) ∈
        errorsOf (CreateTimelineFromArray (pre ++ PhaseEntry.ph pdx :: post) df).2 ∧
      installs (CreateTimelineFromArray (pre ++ PhaseEntry.ph pdx :: post) df).2 =
        []) := by
  refine ⟨?_, ?_, ?_⟩
  · intro pd df isLast prevEnd hsb
    exact createTimelinePhase_fail pd df false isLast prevEnd (Or.inl ⟨rfl, hsb⟩)
  · intro pd df isFirst prevEnd hen
    exact createTimelinePhase_fail pd df isFirst false prevEnd (Or.inr ⟨rfl, hen⟩)
  · intro df pre pdx post hOK hbad
    set total := (pre ++ PhaseEntry.ph pdx :: post).length with htot
    have hOK0 : ∀ (j : Nat) (hj : j < pre.length),
        entryOK df (0 + j) (pre.get ⟨j, hj⟩) := by
      intro j hj
      rw [Nat.zero_add]
      exact hOK j hj
    obtain ⟨prevE, acc2, ev2, hskip⟩ :=
      tlgo_skip df total pre (PhaseEntry.ph pdx :: post) 0 EDouble.negInf [] []
        hOK0
    have hfail : (CreateTimelinePhase pdx df (0 + pre.length == 0)
        (0 + pre.length + 1 == total) prevE).1 = none := by
      apply createTimelinePhase_fail
      rcases hbad with ⟨hne, hsb⟩ | ⟨hne, hen⟩
      · refine Or.inl ⟨?_, hsb⟩
        simp only [Nat.zero_add, beq_eq_false_iff_ne, ne_eq]
        intro hc
        exact hne (List.length_eq_zero.1 hc)
      · refine Or.inr ⟨?_, hen⟩
        simp only [Nat.zero_add, beq_eq_false_iff_ne, ne_eq, htot,
          List.length_append, List.length_cons]
        rcases post with _ | ⟨e, post2⟩
        · exact absurd rfl hne
        · simp only [List.length_cons]
          omega
    have hstep := tlgo_fail_step df total pdx post (0 + pre.length) prevE acc2
      ([] ++ ev2) hfail
    have heq : CreateTimelineFromArray (pre ++ PhaseEntry.ph pdx :: post) df =
        tlgo df total (PhaseEntry.ph pdx :: post) (0 + pre.length) prevE acc2
          ([] ++ ev2) := by
      unfold CreateTimelineFromArray
      rw [← htot]
      exact hskip
    refine ⟨?_, ?_, ?_⟩
    · rw [heq]; exact hstep.1
    · rw [heq]; simpa [Nat.zero_add] using hstep.2
    · unfold CreateTimelineFromArray
      rw [tlgo_installs]
      rfl

/-- C4: For every Modify-disposition entry applied to a body whose current
timeline has more than one phase, if the entry supplies no timeline-affecting
field (no `"Timeline"` array, `"OrbitFrame"`, `"BodyFrame"`, orbit-family
field, rotation field, `"Beginning"`, or `"Ending"`), no replacement timeline
is installed — `setTimeline` is never called, so the existing `Timeline`
object is left untouched, with the same phase count and the same time
bounds.  (The legacy path in fact fails with "No valid orbit" in this case,
leaving the body's state unchanged.) -/
theorem claim_C4_modify_multiphase_untouched (body : Body) (name : String)
    (system : PlanetarySystem) (univ : Universe) (pd : PlanetData)
    (hmulti : 1 < body.timeline.phases.length)
    (htl : pd.timelineVal = none)
    (hof : pd.orbitFrameVal = none) (hbf : pd.bodyFrameVal = none)
    (horb : ∀ u, pd.createOrbit u = none)
    (hrot : ∀ q, pd.createRotation q = none)
    (hbeg : pd.beginningVal = none) (hend : pd.endingVal = none) :
    installs
      (CreateTimeline body name system univ pd Disposition.ModifyObject).2 =
      [] := by
  have key : ∀ (pdf : ReferenceFrame),
      installs (legacyTimeline body pd Disposition.ModifyObject pdf).2 = [] := by
    intro pdf
    rcases hph : body.timeline.phases with _ | ⟨p, _ | ⟨q, rest⟩⟩
    · rw [hph] at hmulti; simp at hmulti
    · rw [hph] at hmulti; simp at hmulti
    · unfold legacyTimeline
      rw [hph]
      simp [legacyFrameField, hof, hbf, horb]
  unfold CreateTimeline
  rcases hb : (GetOrbitBarycenter name system).1 with _ | b0 | s0
  · exact getOrbitBarycenter_installs name system
  · unfold CreateTimelineWithFrameTree
    rw [htl]
    simp only [installs_append, getOrbitBarycenter_installs,
      List.nil_append]
    exact key b0.frameTreeDefault
  · unfold CreateTimelineWithFrameTree
    rw [htl]
    simp only [installs_append, getOrbitBarycenter_installs,
      List.nil_append]
    exact key (univ.starFrameTreeDefault s0)

/-- C5: For every Modify-disposition entry applied to a body whose current
timeline has exactly one phase, when the entry supplies only rotation-model
fields, a new single-phase timeline is installed whose orbit, orbit frame,
body frame, start time, and end time all equal those of the existing phase,
and whose rotation model is the newly supplied one; and the install happens
only because the rotation model was overridden (with no rotation field
either, no timeline is installed at all). -/
theorem claim_C5_modify_rotation_only :
    (∀ (body : Body) (name : String) (system : PlanetarySystem)
        (univ : Universe) (pd : PlanetData) (p : TimelinePhase)
        (r : RotationModel),
      body.timeline.phases = [p] →
      pd.timelineVal = none → pd.orbitFrameVal = none →
      pd.bodyFrameVal = none →
      (∀ u, pd.createOrbit u = none) →
      pd.createRotation p.orbit.period = some r →
      pd.beginningVal = none → pd.endingVal = none →
      (GetOrbitBarycenter name system).1 ≠ Selection.empty →
      (CreateTimeline body name system univ pd Disposition.ModifyObject).1 =
        true ∧
      installs
        (CreateTimeline body name system univ pd Disposition.ModifyObject).2 =
        [Timeline.mk [{ p with rotationModel := r }]]) ∧
    (∀ (body : Body) (name : String) (system : PlanetarySystem)
        (univ : Universe) (pd : PlanetData) (p : TimelinePhase),
      body.timeline.phases = [p] →
      pd.timelineVal = none → pd.orbitFrameVal = none →
      pd.bodyFrameVal = none →
      (∀ u, pd.createOrbit u = none) →
      (∀ q, pd.createRotation q = none) →
      pd.beginningVal = none → pd.endingVal = none →
      (GetOrbitBarycenter name system).1 ≠ Selection.empty →
      (CreateTimeline body name system univ pd Disposition.ModifyObject).1 =
        true ∧
      installs
        (CreateTimeline body name system univ pd Disposition.ModifyObject).2 =
        []) := by
  constructor
  · intro body name system univ pd p r hph htl hof hbf horb hrot hbeg hend
      hbary
    have key : ∀ (pdf : ReferenceFrame),
        legacyTimeline body pd Disposition.ModifyObject pdf =
          (true,
            (legacyTimeline body pd Disposition.ModifyObject pdf).2) ∧
        installs (legacyTimeline body pd Disposition.ModifyObject pdf).2 =
          [Timeline.mk [{ p with rotationModel := r }]] := by
      intro pdf
      unfold legacyTimeline
      rw [hph]
      simp [legacyFrameField, hof, hbf, horb, hrot, hbeg, hend, pickOrbit,
        pickRot, installPhase, circularCheck]
    unfold CreateTimeline
    rcases hb : (GetOrbitBarycenter name system).1 with _ | b0 | s0
    · exact absurd hb hbary
    · unfold CreateTimelineWithFrameTree
      rw [htl]
      have hk := key b0.frameTreeDefault
      constructor
      · simp only []
        rw [(hk.1 : _ = _)]
      · simp only [installs_append, getOrbitBarycenter_installs,
          List.nil_append]
        exact hk.2
    · unfold CreateTimelineWithFrameTree
      rw [htl]
      have hk := key (univ.starFrameTreeDefault s0)
      constructor
      · simp only []
        rw [(hk.1 : _ = _)]
      · simp only [installs_append, getOrbitBarycenter_installs,
          List.nil_append]
        exact hk.2
  · intro body name system univ pd p hph htl hof hbf horb hrot hbeg hend
      hbary
    have key : ∀ (pdf : ReferenceFrame),
        legacyTimeline body pd Disposition.ModifyObject pdf =
          (true,
            (legacyTimeline body pd Disposition.ModifyObject pdf).2) ∧
        installs (legacyTimeline body pd Disposition.ModifyObject pdf).2 =
          [] := by
      intro pdf
      unfold legacyTimeline
      rw [hph]
      simp [legacyFrameField, hof, hbf, horb, hrot, hbeg, hend, pickOrbit,
        pickRot, installPhase, circularCheck]
    unfold CreateTimeline
    rcases hb : (GetOrbitBarycenter name system).1 with _ | b0 | s0
    · exact absurd hb hbary
    · unfold CreateTimelineWithFrameTree
      rw [htl]
      have hk := key b0.frameTreeDefault
      constructor
      · simp only []
        rw [(hk.1 : _ = _)]
      · simp only [installs_append, getOrbitBarycenter_installs,
          List.nil_append]
        exact hk.2
    · unfold CreateTimelineWithFrameTree
      rw [htl]
      have hk := key (univ.starFrameTreeDefault s0)
      constructor
      · simp only []
        rw [(hk.1 : _ = _)]
      · simp only [installs_append, getOrbitBarycenter_installs,
          List.nil_append]
        exact hk.2

/-- C8: For an Add-disposition object whose fields supply an `"OrbitFrame"`
`F` centered on a star and a valid orbit `o` (such as one with period
365.25), and no rotation fields, no `"Beginning"`, and no `"Ending"`, the
installed `Timeline` has exactly one phase with start time `-infinity`, end
time `+infinity`, orbit frame `F`, and a default synchronous (uniform)
rotation model whose period is the orbit's period.  (`F`'s nesting depth must
be within the bound, else the post-install circularity check fails the
construction.) -/
theorem claim_C8_add_scenario (body : Body) (name : String)
    (system : PlanetarySystem) (univ : Universe) (pd : PlanetData)
    (F : ReferenceFrame) (o : Orbit) (sid : Nat)
    (htl : pd.timelineVal = none)
    (hof : pd.orbitFrameVal = some (some F))
    (hcen : F.center = Center.cstar sid)
    (hdepth : F.nestingDepth FrameType.PositionFrame ≤ MaxFrameDepth)
    (hbf : pd.bodyFrameVal = none)
    (horb : pd.createOrbit true = some o)
    (hrot : ∀ q, pd.createRotation q = none)
    (hbeg : pd.beginningVal = none) (hend : pd.endingVal = none)
    (hbary : (GetOrbitBarycenter name system).1 ≠ Selection.empty) :
    (CreateTimeline body name system univ pd Disposition.AddObject).1 = true ∧
    ∃ dfF : ReferenceFrame,
      installs
        (CreateTimeline body name system univ pd Disposition.AddObject).2 =
        [Timeline.mk
          [{ startTime := EDouble.negInf, endTime := EDouble.posInf,
             orbitFrame := F, bodyFrame := dfF, orbit := o,
             rotationModel := RotationModel.uniform o.period }]] := by
  have hstar : centerIsStar F = true := by
    unfold centerIsStar
    rw [hcen]
  have hnc : isFrameCircular F FrameType.PositionFrame = false := by
    unfold isFrameCircular
    simp only [decide_eq_false_iff_not, not_lt]
    exact hdepth
  have key : ∀ (pdf : ReferenceFrame),
      legacyTimeline body pd Disposition.AddObject pdf =
        (true, (legacyTimeline body pd Disposition.AddObject pdf).2) ∧
      installs (legacyTimeline body pd Disposition.AddObject pdf).2 =
        [Timeline.mk
          [{ startTime := EDouble.negInf, endTime := EDouble.posInf,
             orbitFrame := F, bodyFrame := pdf, orbit := o,
             rotationModel := RotationModel.uniform o.period }]] := by
    intro pdf
    unfold legacyTimeline
    simp [legacyFrameField, hof, hbf, hstar, horb, hrot, hbeg, hend,
      pickOrbit, pickRot, installPhase, circularCheck, hnc,
      CreateDefaultRotationModel]
  unfold CreateTimeline
  rcases hb : (GetOrbitBarycenter name system).1 with _ | b0 | s0
  · exact absurd hb hbary
  · unfold CreateTimelineWithFrameTree
    rw [htl]
    have hk := key b0.frameTreeDefault
    refine ⟨?_, b0.frameTreeDefault, ?_⟩
    · simp only []
      rw [(hk.1 : _ = _)]
    · simp only [installs_append, getOrbitBarycenter_installs,
        List.nil_append]
      exact hk.2
  · unfold CreateTimelineWithFrameTree
    rw [htl]
    have hk := key (univ.starFrameTreeDefault s0)
    refine ⟨?_, univ.starFrameTreeDefault s0, ?_⟩
    · simp only []
      rw [(hk.1 : _ = _)]
    · simp only [installs_append, getOrbitBarycenter_installs,
        List.nil_append]
      exact hk.2

/-- C2 (amended): the frame-depth check is run only by the legacy
single-phase path, and only on newly supplied frames: when the legacy path
newly attaches an `"OrbitFrame"` whose `nestingDepth` at the fixed bound
`MaxFrameDepth` (50) exceeds the bound, the construction fails and the error
names the body and the orbit frame; likewise for a newly supplied
`"BodyFrame"` and the body-frame error.  (The explicit `"Timeline"` array
path performs no such check — see the counterexample.) -/
theorem claim_C2_amended :
    (∀ (body : Body) (name : String) (system : PlanetarySystem)
        (univ : Universe) (pd : PlanetData) (disposition : Disposition)
        (F : ReferenceFrame) (o : Orbit),
      pd.timelineVal = none →
      pd.orbitFrameVal = some (some F) →
      MaxFrameDepth < F.nestingDepth FrameType.PositionFrame →
      (∀ u, pd.createOrbit u = some o) →
      (GetOrbitBarycenter name system).1 ≠ Selection.empty →
      (CreateTimeline body name system univ pd disposition).1 = false ∧
      LogMsg.orbitFrameTooDeep body.name ∈
        errorsOf (CreateTimeline body name system univ pd disposition).2) ∧
    (∀ (body : Body) (name : String) (system : PlanetarySystem)
        (univ : Universe) (pd : PlanetData) (disposition : Disposition)
        (G : ReferenceFrame) (o : Orbit),
      pd.timelineVal = none →
      pd.orbitFrameVal = none →
      pd.bodyFrameVal = some (some G) →
      MaxFrameDepth < G.nestingDepth FrameType.OrientationFrame →
      (∀ u, pd.createOrbit u = some o) →
      (GetOrbitBarycenter name system).1 ≠ Selection.empty →
      (CreateTimeline body name system univ pd disposition).1 = false ∧
      LogMsg.bodyFrameTooDeep body.name ∈
        errorsOf (CreateTimeline body name system univ pd disposition).2) := by
  constructor
  · intro body name system univ pd disposition F o htl hof hdeep horb hbary
    have hc : isFrameCircular F FrameType.PositionFrame = true := by
      unfold isFrameCircular
      simp only [decide_eq_true_eq]
      exact hdeep
    have key : ∀ (pdf : ReferenceFrame),
        legacyTimeline body pd disposition pdf =
          (false, (legacyTimeline body pd disposition pdf).2) ∧
        LogMsg.orbitFrameTooDeep body.name ∈
          errorsOf (legacyTimeline body pd disposition pdf).2 := by
      intro pdf
      unfold legacyTimeline
      simp [legacyFrameField, hof, horb, installPhase, circularCheck, hc,
        pickOrbit]
    unfold CreateTimeline
    rcases hb : (GetOrbitBarycenter name system).1 with _ | b0 | s0
    · exact absurd hb hbary
    · unfold CreateTimelineWithFrameTree
      rw [htl]
      have hk := key b0.frameTreeDefault
      constructor
      · simp only []
        rw [(hk.1 : _ = _)]
      · simp only [errorsOf_append, List.mem_append]
        exact Or.inr hk.2
    · unfold CreateTimelineWithFrameTree
      rw [htl]
      have hk := key (univ.starFrameTreeDefault s0)
      constructor
      · simp only []
        rw [(hk.1 : _ = _)]
      · simp only [errorsOf_append, List.mem_append]
        exact Or.inr hk.2
  · intro body name system univ pd disposition G o htl hof hbf hdeep horb
      hbary
    have hc : isFrameCircular G FrameType.OrientationFrame = true := by
      unfold isFrameCircular
      simp only [decide_eq_true_eq]
      exact hdeep
    have key : ∀ (pdf : ReferenceFrame),
        legacyTimeline body pd disposition pdf =
          (false, (legacyTimeline body pd disposition pdf).2) ∧
        LogMsg.bodyFrameTooDeep body.name ∈
          errorsOf (legacyTimeline body pd disposition pdf).2 := by
      intro pdf
      unfold legacyTimeline
      simp [legacyFrameField, hof, hbf, horb, installPhase, circularCheck,
        hc, pickOrbit]
    unfold CreateTimeline
    rcases hb : (GetOrbitBarycenter name system).1 with _ | b0 | s0
    · exact absurd hb hbary
    · unfold CreateTimelineWithFrameTree
      rw [htl]
      have hk := key b0.frameTreeDefault
      constructor
      · simp only []
        rw [(hk.1 : _ = _)]
      · simp only [errorsOf_append, List.mem_append]
        exact Or.inr hk.2
    · unfold CreateTimelineWithFrameTree
      rw [htl]
      have hk := key (univ.starFrameTreeDefault s0)
      constructor
      · simp only []
        rw [(hk.1 : _ = _)]
      · simp only [errorsOf_append, List.mem_append]
        exact Or.inr hk.2

/-- C3 (amended): for every failing timeline construction that goes through
the explicit `"Timeline"` phase-array path, the body's previously installed
`Timeline` is left intact (`setTimeline` is never called) and every reference
frame, orbit, and rotation model retained during the failed attempt is
released before the failure is returned.  (The legacy path does not satisfy
this: its missing-orbit failure leaks newly created frames, and its
circularity failure installs the new timeline before returning failure — see
the counterexample.) -/
theorem claim_C3_amended (body : Body) (name : String)
    (system : PlanetarySystem) (univ : Universe) (pd : PlanetData)
    (disposition : Disposition) (entries : List PhaseEntry)
    (harr : pd.timelineVal = some (TimelineSpec.arr entries))
    (hfail : (CreateTimeline body name system univ pd disposition).1 = false) :
    installs (CreateTimeline body name system univ pd disposition).2 = [] ∧
    (retains (CreateTimeline body name system univ pd disposition).2).Perm
      (releases (CreateTimeline body name system univ pd disposition).2) := by
  have key : ∀ (pdf : ReferenceFrame),
      (CreateTimelineWithFrameTree body pd disposition pdf
        (GetOrbitBarycenter name system).2).1 = false →
      installs (CreateTimelineWithFrameTree body pd disposition pdf
        (GetOrbitBarycenter name system).2).2 = [] ∧
      (retains (CreateTimelineWithFrameTree body pd disposition pdf
        (GetOrbitBarycenter name system).2).2).Perm
        (releases (CreateTimelineWithFrameTree body pd disposition pdf
          (GetOrbitBarycenter name system).2).2) := by
    intro pdf hf
    unfold CreateTimelineWithFrameTree at hf ⊢
    rw [harr] at hf ⊢
    simp only [] at hf ⊢
    rcases hra : CreateTimelineFromArray entries pdf with ⟨ra, reva⟩
    rw [hra] at hf
    cases ra with
    | some tla => simp at hf
    | none =>
      have hcounts : ∀ r : Res,
          (retains reva).count r = (releases reva).count r := by
        refine tlgo_counts_fail pdf entries.length entries 0 EDouble.negInf
          [] [] reva ?_ ?_
        · exact hra
        · intro r; simp [heldRes]
      have hinst : installs reva = [] := by
        have := tlgo_installs pdf entries.length entries 0 EDouble.negInf [] []
        have h2 : (tlgo pdf entries.length entries 0 EDouble.negInf [] []).2 =
            reva := by
          show (CreateTimelineFromArray entries pdf).2 = reva
          rw [hra]
        rw [h2] at this
        simpa using this
      constructor
      · simp [hinst, getOrbitBarycenter_installs]
      · rw [List.perm_iff_count]
        intro r
        have hcr := hcounts r
        simp [getOrbitBarycenter_retains, getOrbitBarycenter_releases]
        omega
  unfold CreateTimeline at hfail ⊢
  rcases hb : (GetOrbitBarycenter name system).1 with _ | b0 | s0 <;>
    rw [hb] at hfail
  · refine ⟨getOrbitBarycenter_installs name system, ?_⟩
    rw [List.perm_iff_count]
    intro r
    rw [getOrbitBarycenter_retains, getOrbitBarycenter_releases]
  · exact key b0.frameTreeDefault hfail
  · exact key (univ.starFrameTreeDefault s0) hfail

/-- C9 (amended): the only way a timeline with zero phases is installed via
`setTimeline` is from an explicit `"Timeline"` array with zero entries; every
timeline installed from a nonempty array is nonempty (one phase per entry),
and the legacy path always installs exactly one phase.  (The original claim —
that even a zero-entry array yields a non-empty installed timeline — is
refuted by the counterexample: the empty array successfully installs an empty
timeline.) -/
theorem claim_C9_amended (body : Body) (name : String)
    (system : PlanetarySystem) (univ : Universe) (pd : PlanetData)
    (disposition : Disposition) (tl : Timeline)
    (hmem : tl ∈ installs (CreateTimeline body name system univ pd disposition).2)
    (hemp : tl.phases = []) :
    pd.timelineVal = some (TimelineSpec.arr []) := by
  have key : ∀ (pdf : ReferenceFrame),
      tl ∈ installs (CreateTimelineWithFrameTree body pd disposition pdf
        (GetOrbitBarycenter name system).2).2 →
      pd.timelineVal = some (TimelineSpec.arr []) := by
    intro pdf hm
    unfold CreateTimelineWithFrameTree at hm
    rcases htl : pd.timelineVal with _ | ts
    · rw [htl] at hm
      simp only [installs_append, getOrbitBarycenter_installs,
        List.nil_append] at hm
      obtain ⟨ph, hph⟩ :=
        legacy_installs_singleton body pd disposition pdf tl hm
      rw [hemp] at hph
      simp at hph
    · rw [htl] at hm
      cases ts with
      | notArray =>
        simp only [installs_append, getOrbitBarycenter_installs,
          List.nil_append, installs_cons_err, installs_nil] at hm
        simp at hm
      | arr entries =>
        simp only [] at hm
        rcases hra : CreateTimelineFromArray entries pdf with ⟨ra, reva⟩
        rw [hra] at hm
        have hinst : installs reva = [] := by
          have := tlgo_installs pdf entries.length entries 0 EDouble.negInf
            [] []
          have h2 : (tlgo pdf entries.length entries 0 EDouble.negInf
              [] []).2 = reva := by
            show (CreateTimelineFromArray entries pdf).2 = reva
            rw [hra]
          rw [h2] at this
          simpa using this
        cases ra with
        | none =>
          simp only [installs_append, getOrbitBarycenter_installs,
            List.nil_append, hinst] at hm
          simp at hm
        | some tla =>
          simp only [installs_append, getOrbitBarycenter_installs,
            List.nil_append, hinst, installs_cons_set, installs_nil,
            List.mem_singleton] at hm
          subst hm
          have hlen := tlgo_length pdf entries.length entries 0
            EDouble.negInf [] [] tl reva ?_
          · have hzero : entries.length = 0 := by
              rw [hemp] at hlen
              simpa using hlen.symm
            rw [List.length_eq_zero.1 hzero]
          · show tlgo pdf entries.length entries 0 EDouble.negInf [] [] =
              (some tl, reva)
            show CreateTimelineFromArray entries pdf = (some tl, reva)
            rw [hra]
  unfold CreateTimeline at hmem
  rcases hb : (GetOrbitBarycenter name system).1 with _ | b0 | s0 <;>
    rw [hb] at hmem
  · rw [getOrbitBarycenter_installs] at hmem
    simp at hmem
  · exact key b0.frameTreeDefault hmem
  · exact key (univ.starFrameTreeDefault s0) hmem

/-! ### Counterexamples and witnesses -/

/-- C2's counterexample: via the explicit `"Timeline"` array path, a frame
whose nesting depth (51) exceeds `MaxFrameDepth` (50) is newly attached to
the body's timeline, yet the construction succeeds, logs no error at all,
and installs the deep frame — so the claim that `nestingDepth` is checked
"via either path" and that exceeding the bound fails the construction is
false as stated. -/
theorem claim_C2_counterexample :
    (CreateTimeline cBody "Foo" cSystem cUniv c2PD Disposition.AddObject).1 =
      true ∧
    errorsOf
      (CreateTimeline cBody "Foo" cSystem cUniv c2PD Disposition.AddObject).2 =
      [] ∧
    installs
      (CreateTimeline cBody "Foo" cSystem cUniv c2PD Disposition.AddObject).2 =
      [Timeline.mk
        [{ startTime := EDouble.negInf, endTime := EDouble.posInf,
           orbitFrame := cDeepFrame, bodyFrame := cDefFrame, orbit := cOrbit,
           rotationModel := RotationModel.constantOrientation }]] ∧
    MaxFrameDepth < cDeepFrame.nestingDepth FrameType.PositionFrame := by
  decide

/-- C2's witness for the amended claim: on the legacy path, newly supplying
the deep orbit frame fails the construction with the error naming the body
and the orbit frame. -/
theorem claim_C2_witness :
    (CreateTimeline cBody "Foo" cSystem cUniv c2L Disposition.AddObject).1 =
      false ∧
    LogMsg.orbitFrameTooDeep "Foo" ∈
      errorsOf
        (CreateTimeline cBody "Foo" cSystem cUniv c2L Disposition.AddObject).2 := by
  have h := claim_C2_amended.1 cBody "Foo" cSystem cUniv c2L
    Disposition.AddObject cDeepFrame cOrbit rfl rfl (by decide)
    (fun u => rfl) (by decide)
  exact ⟨h.1, h.2⟩

/-- C3's counterexample: the legacy path's missing-orbit failure returns
`false` with the newly created orbit frame retained and never released —
so "every resource retained during the failed attempt is released" is false
as stated. -/
theorem claim_C3_counterexample :
    (CreateTimeline cBody "Foo" cSystem cUniv c3PD Disposition.AddObject).1 =
      false ∧
    retains
      (CreateTimeline cBody "Foo" cSystem cUniv c3PD Disposition.AddObject).2 =
      [Res.frame cStarFrame] ∧
    releases
      (CreateTimeline cBody "Foo" cSystem cUniv c3PD Disposition.AddObject).2 =
      [] := by
  decide

/-- C3's witness for the amended claim: a failing `"Timeline"`-array
construction installs nothing and has balanced retains/releases. -/
theorem claim_C3_witness :
    installs
      (CreateTimeline cBody "Foo" cSystem cUniv c3aPD Disposition.AddObject).2 =
      [] ∧
    (retains
      (CreateTimeline cBody "Foo" cSystem cUniv c3aPD Disposition.AddObject).2).Perm
      (releases
        (CreateTimeline cBody "Foo" cSystem cUniv c3aPD Disposition.AddObject).2) :=
  claim_C3_amended cBody "Foo" cSystem cUniv c3aPD Disposition.AddObject
    [PhaseEntry.notHash] rfl (by decide)

/-- C1's witness: the spec's two-entry scenario assembles the contiguous
two-phase timeline `c1TL`, and the theorem yields contiguity at index 0. -/
theorem claim_C1_witness :
    (CreateTimelineFromArray c1Entries cDefFrame).1 = some c1TL ∧
    (c1TL.phases.get ⟨0, by decide⟩).endTime =
      (c1TL.phases.get ⟨1, by decide⟩).startTime :=
  ⟨by decide,
   claim_C1_phases_contiguous c1Entries cDefFrame c1TL (by decide) 0 (by decide)⟩

/-- C4's witness: Modify on a two-phase timeline with a fully empty entry
installs nothing. -/
theorem claim_C4_witness :
    installs
      (CreateTimeline cBodyMulti "Bar" cSystem cUniv cEmptyPD
        Disposition.ModifyObject).2 = [] :=
  claim_C4_modify_multiphase_untouched cBodyMulti "Bar" cSystem cUniv cEmptyPD
    (by decide) rfl rfl rfl (fun u => rfl) (fun q => rfl) rfl rfl

/-- C5's witness: Modify on a single-phase timeline with only a rotation
model installs the phase with everything inherited except the rotation. -/
theorem claim_C5_witness :
    (CreateTimeline cBodySingle "Baz" cSystem cUniv c5PD
      Disposition.ModifyObject).1 = true ∧
    installs
      (CreateTimeline cBodySingle "Baz" cSystem cUniv c5PD
        Disposition.ModifyObject).2 =
      [Timeline.mk [{ cPhase with rotationModel := RotationModel.custom 9 }]] :=
  claim_C5_modify_rotation_only.1 cBodySingle "Baz" cSystem cUniv c5PD cPhase
    (RotationModel.custom 9) rfl rfl rfl rfl (fun u => rfl) rfl rfl rfl
    (by decide)

/-- C6's witness: a two-entry array whose second entry supplies
`"Beginning"` aborts with the 1-based index 2. -/
theorem claim_C6_witness :
    (CreateTimelineFromArray
      [PhaseEntry.ph tPhase1, PhaseEntry.ph tPhaseBadBeg] cDefFrame).1 =
      none ∧
    LogMsg.phaseFailed 2 ∈
      errorsOf (CreateTimelineFromArray
        [PhaseEntry.ph tPhase1, PhaseEntry.ph tPhaseBadBeg] cDefFrame).2 ∧
    installs (CreateTimelineFromArray
      [PhaseEntry.ph tPhase1, PhaseEntry.ph tPhaseBadBeg] cDefFrame).2 = [] := by
  have h := claim_C6_phase_date_errors.2.2 cDefFrame [PhaseEntry.ph tPhase1]
    tPhaseBadBeg []
    (by
      intro j hj
      have hj0 : j = 0 := by simpa using hj
      subst hj0
      simp [entryOK, tPhase1, resolveFrame])
    (Or.inl ⟨by simp, rfl⟩)
  simpa using h

/-- C7's witness: the `CreateOrbit` call event in the `c8PD` run carries
flag `true` for the star-centered frame. -/
theorem claim_C7_witness :
    Event.orbitCall cStarFrame true ∈
      (CreateTimeline cBody "Foo" cSystem cUniv c8PD Disposition.AddObject).2 ∧
    true = centerIsStar cStarFrame :=
  ⟨by decide,
   claim_C7_orbit_units cBody "Foo" cSystem cUniv c8PD Disposition.AddObject
     cStarFrame true (by decide)⟩

/-- C8's witness: the Add scenario with a star-centered orbit frame and the
365.25-period orbit installs the expected single-phase timeline. -/
theorem claim_C8_witness :
    (CreateTimeline cBody "Foo" cSystem cUniv c8PD Disposition.AddObject).1 =
      true ∧
    ∃ dfF : ReferenceFrame,
      installs
        (CreateTimeline cBody "Foo" cSystem cUniv c8PD Disposition.AddObject).2 =
        [Timeline.mk
          [{ startTime := EDouble.negInf, endTime := EDouble.posInf,
             orbitFrame := cStarFrame, bodyFrame := dfF, orbit := cOrbit,
             rotationModel := RotationModel.uniform cOrbit.period }]] :=
  claim_C8_add_scenario cBody "Foo" cSystem cUniv c8PD cStarFrame cOrbit 7
    rfl rfl rfl (by decide) rfl rfl (fun q => rfl) rfl rfl (by decide)

/-- C9's counterexample: an explicit `"Timeline"` array with zero entries
succeeds and installs an empty timeline via `setTimeline` — so the claim
that every installed timeline is non-empty (including for a zero-entry
array) is false as stated. -/
theorem claim_C9_counterexample :
    (CreateTimeline cBody "Foo" cSystem cUniv c9PD Disposition.AddObject).1 =
      true ∧
    Timeline.mk [] ∈
      installs
        (CreateTimeline cBody "Foo" cSystem cUniv c9PD Disposition.AddObject).2 := by
  decide

/-- C9's witness for the amended claim: the empty installed timeline comes
precisely from the zero-entry array input. -/
theorem claim_C9_witness :
    Timeline.mk [] ∈
      installs
        (CreateTimeline cBody "Foo" cSystem cUniv c9PD Disposition.AddObject).2 ∧
    c9PD.timelineVal = some (TimelineSpec.arr []) :=
  ⟨by decide,
   claim_C9_amended cBody "Foo" cSystem cUniv c9PD Disposition.AddObject
     (Timeline.mk []) (by decide) rfl⟩

/-- C10's witness: with no primary body the barycenter is the system's star
with no error, and with a foreign-star primary body the whole construction
fails. -/
theorem claim_C10_witness :
    GetOrbitBarycenter "Qux" cSystem = (Selection.star 7, []) ∧
    (CreateTimeline cBody "Qux" cSystemBad cUniv cEmptyPD
      Disposition.AddObject).1 = false :=
  ⟨(claim_C10_barycenter "Qux" cSystem).1 rfl,
   (claim_C10_barycenter "Qux" cSystemBad).2.2 cBody cUniv cEmptyPD
     Disposition.AddObject (by decide)⟩

end Celestia
